import Mathlib

/-!
# Verification of the slide-deck generator (`docs/generate_case_study_ppt.py`)

Shallow embedding of the generator's core functions, followed by theorems
settling the frozen claims C1–C10.

Conventions of the embedding:
* Python `str` values become Lean `String`; where character-level induction is
  needed (the tokenizer) we work on `List Char` and convert.
* Python `bytes` values become `List Nat` with every element `< 256`.
* Regex character classes `\w`, `\d`, `\s` and the `str.isupper`/`str.isspace`
  predicates are modelled over their ASCII ranges (the generator only feeds
  ASCII code/markup through them).
* Python `dict` is modelled as an insertion-ordered association list where a
  repeated key overwrites the earlier binding in place (CPython semantics).
* The only external effect in the pipeline, `zlib.compress`, is kept abstract
  as a function parameter `compress : List Nat → List Nat`.
* Fallible code (`table_xml` raising `ValueError`) returns `Except String _`.
-/

namespace PptGen

/-! ## Python string primitives -/

/-- ASCII whitespace, the characters matched by Python's `\s` / `str.strip()`
on the ASCII plane. -/
def isSpaceChar (c : Char) : Bool :=
  c = ' ' || c = '\t' || c = '\n' || c = '\r' || c = '\x0b' || c = '\x0c'

/-- `\w` on the ASCII plane: letters, digits, underscore. -/
def isWordChar (c : Char) : Bool :=
  ('a' ≤ c && c ≤ 'z') || ('A' ≤ c && c ≤ 'Z') || ('0' ≤ c && c ≤ '9') || c = '_'

/-- `[A-Za-z_]`, the leading character of an identifier or decorator token. -/
def isIdentStart (c : Char) : Bool :=
  ('a' ≤ c && c ≤ 'z') || ('A' ≤ c && c ≤ 'Z') || c = '_'

/-- `\d` on the ASCII plane. -/
def isDigitChar (c : Char) : Bool :=
  '0' ≤ c && c ≤ '9'

/-- `str.isupper()` for the first character of an identifier (ASCII plane). -/
def isUpperChar (c : Char) : Bool :=
  'A' ≤ c && c ≤ 'Z'

/-- Python `str.strip()` on a character list: drop ASCII whitespace from both
ends. -/
def pyStripList (cs : List Char) : List Char :=
  ((cs.dropWhile isSpaceChar).reverse.dropWhile isSpaceChar).reverse

/-- Python `str.strip()`. -/
def pyStrip (s : String) : String :=
  String.mk (pyStripList s.toList)

/-- Python `str.isspace()`: non-empty and all whitespace. -/
def pyIsspace (cs : List Char) : Bool :=
  !cs.isEmpty && cs.all isSpaceChar

/-- Python `s.startswith(p)` on character lists. -/
def pyStartswith (cs p : List Char) : Bool :=
  p.isPrefixOf cs

/-- Python `s.startswith((p1, …, pn))`: true if some prefix in the tuple
matches. -/
def pyStartswithAny (cs : List Char) (ps : List (List Char)) : Bool :=
  ps.any (fun p => pyStartswith cs p)

/-! ## `format_body_line` (source lines 433–439) -/

/-- The ordinal-marker / dash prefixes checked by `format_body_line`. -/
def bodyLineMarkers : List (List Char) :=
  [['-'], ['1', '.'], ['2', '.'], ['3', '.'], ['4', '.'], ['5', '.'],
   ['6', '.'], ['7', '.'], ['8', '.'], ['9', '.'], ['1', '0', '.']]

/-- `format_body_line` from the source: strip the line; empty lines map to the
empty string, lines already starting with `-` or `1.`–`10.` pass through
stripped, every other line is prefixed with a bullet glyph. -/
def format_body_line (line : String) : String :=
  let stripped := pyStripList line.toList
  if stripped.isEmpty then ""
  else if pyStartswithAny stripped bodyLineMarkers then String.mk stripped
  else String.mk ('•' :: ' ' :: stripped)

/-! ## `TOKEN_RE` tokenizer (source lines 23–25)

`TOKEN_RE = //.*|"(?:\\.|[^"\\])*"|'(?:\\.|[^'\\])*'|@[A-Za-z_]\w*|\b[A-Za-z_]\w*\b|\d+(?:_\d+)*|\s+|.`

`re.findall` scans left to right; at each position the first alternative
that matches (each matched greedily — all alternatives here are
deterministic) produces the token. Every helper below returns the consumed
token together with the remaining input. -/

/-- Body of a quoted literal after the opening quote: `(?:\\.|[^q\\])*q`.
A backslash escapes any character except a newline; an unescaped closing
quote ends the literal; running out of input means the alternative fails. -/
def scanStringBody (q : Char) : List Char → Option (List Char × List Char)
  | [] => none
  | c :: rest =>
    if c = q then some ([c], rest)
    else if c = '\\' then
      match rest with
      | [] => none
      | d :: rest2 =>
        if d = '\n' then none
        else (scanStringBody q rest2).map (fun p => (c :: d :: p.1, p.2))
    else (scanStringBody q rest).map (fun p => (c :: p.1, p.2))

/-- The `(?:_\d+)*` suffix of a number token: consume as many `_digits`
groups as possible. Returns the consumed characters and the rest. `fuel`
only bounds the number of loop iterations; every iteration consumes at least
two characters, so any `fuel > length` behaves like the unbounded loop. -/
def numGroupsF : Nat → List Char → List Char × List Char
  | 0, cs => ([], cs)
  | _ + 1, [] => ([], [])
  | fuel + 1, '_' :: rest =>
    if (rest.takeWhile isDigitChar).isEmpty then ([], '_' :: rest)
    else ('_' :: (rest.takeWhile isDigitChar ++ (numGroupsF fuel (rest.dropWhile isDigitChar)).1),
          (numGroupsF fuel (rest.dropWhile isDigitChar)).2)
  | _ + 1, c :: rest => ([], c :: rest)

/-- `numGroupsF` with always-adequate fuel. -/
def numGroups (cs : List Char) : List Char × List Char :=
  numGroupsF (cs.length + 1) cs

/-- Alternative 1, `//.*`: a line comment absorbs everything up to the next
newline (or the end of input). -/
def tryComment : List Char → Option (List Char × List Char)
  | '/' :: '/' :: rest =>
    some ('/' :: '/' :: rest.takeWhile (fun c => c ≠ '\n'),
          rest.dropWhile (fun c => c ≠ '\n'))
  | _ => none

/-- Alternatives 2–3: a quoted string/char literal delimited by `q`. -/
def tryQuoted (q : Char) : List Char → Option (List Char × List Char)
  | c :: rest =>
    if c = q then (scanStringBody q rest).map (fun p => (c :: p.1, p.2))
    else none
  | [] => none

/-- Alternative 4, `@[A-Za-z_]\w*`: a decorator-style token. -/
def tryDecorator : List Char → Option (List Char × List Char)
  | '@' :: d :: rest =>
    if isIdentStart d then
      some ('@' :: d :: rest.takeWhile isWordChar, rest.dropWhile isWordChar)
    else none
  | _ => none

/-- `\b` before the current position: start of input or previous character is
not a word character. -/
def atBoundary : Option Char → Bool
  | none => true
  | some p => !isWordChar p

/-- Alternative 5, `\b[A-Za-z_]\w*\b`: a bare identifier. The trailing `\b`
holds automatically after the greedy `\w*`. -/
def tryIdent (prev : Option Char) : List Char → Option (List Char × List Char)
  | c :: rest =>
    if atBoundary prev && isIdentStart c then
      some (c :: rest.takeWhile isWordChar, rest.dropWhile isWordChar)
    else none
  | [] => none

/-- Alternative 6, `\d+(?:_\d+)*`: an integer literal with optional
underscore groups. -/
def tryNumber : List Char → Option (List Char × List Char)
  | c :: rest =>
    if isDigitChar c then
      let p := numGroups (rest.dropWhile isDigitChar)
      some (c :: rest.takeWhile isDigitChar ++ p.1, p.2)
    else none
  | [] => none

/-- Alternative 7, `\s+`: a whitespace run. -/
def tryWhitespaceRun : List Char → Option (List Char × List Char)
  | c :: rest =>
    if isSpaceChar c then
      some (c :: rest.takeWhile isSpaceChar, rest.dropWhile isSpaceChar)
    else none
  | [] => none

/-- Alternative 8, `.`: any single character except a newline. -/
def tryAnyChar : List Char → Option (List Char × List Char)
  | c :: rest => if c = '\n' then none else some ([c], rest)
  | [] => none

/-- One `TOKEN_RE` match at the current position, trying the alternatives in
the order they appear in the pattern. `prev` is the character immediately
before the position (needed for `\b`). -/
def nextTok (prev : Option Char) (cs : List Char) : Option (List Char × List Char) :=
  match tryComment cs with
  | some p => some p
  | none =>
  match tryQuoted '"' cs with
  | some p => some p
  | none =>
  match tryQuoted '\'' cs with
  | some p => some p
  | none =>
  match tryDecorator cs with
  | some p => some p
  | none =>
  match tryIdent prev cs with
  | some p => some p
  | none =>
  match tryNumber cs with
  | some p => some p
  | none =>
  match tryWhitespaceRun cs with
  | some p => some p
  | none => tryAnyChar cs

/-- Soundness of `scanStringBody`: the consumed token is a non-empty prefix
of the input. -/
theorem scanStringBody_sound (q : Char) :
    ∀ cs t r, scanStringBody q cs = some (t, r) → cs = t ++ r ∧ t ≠ [] := by
  intro cs
  induction cs using scanStringBody.induct q with
  | case1 => intro t r h; simp [scanStringBody] at h
  | case2 rest2 =>
    intro t r h
    rw [scanStringBody.eq_def] at h
    simp at h
    obtain ⟨ht, hr⟩ := h
    subst ht; subst hr
    exact ⟨by simp, by simp⟩
  | case3 hq =>
    intro t r h
    rw [scanStringBody.eq_def] at h
    simp [hq] at h
  | case4 rest2 hq =>
    intro t r h
    rw [scanStringBody.eq_def] at h
    simp [hq] at h
  | case5 d rest2 hd hq ih =>
    intro t r h
    rcases hrec : scanStringBody q rest2 with - | ⟨t', r'⟩ <;>
      (rw [scanStringBody.eq_def] at h; simp [hq, hd, hrec] at h)
    obtain ⟨h1, -⟩ := ih t' r' hrec
    obtain ⟨ht, hr⟩ := h
    subst ht; subst hr
    simp [h1]
  | case6 d rest2 hdq hdb ih =>
    intro t r h
    rcases hrec : scanStringBody q rest2 with - | ⟨t', r'⟩ <;>
      (rw [scanStringBody.eq_def] at h; simp [hdq, hdb, hrec] at h)
    obtain ⟨h1, -⟩ := ih t' r' hrec
    obtain ⟨ht, hr⟩ := h
    subst ht; subst hr
    simp [h1]

/-- Soundness of `numGroupsF` (for every fuel): consumed ++ rest = input. -/
theorem numGroupsF_sound :
    ∀ fuel cs, (numGroupsF fuel cs).1 ++ (numGroupsF fuel cs).2 = cs := by
  intro fuel
  induction fuel with
  | zero => intro cs; rfl
  | succ fuel ih =>
    intro cs
    rcases cs with - | ⟨c, rest⟩
    · rfl
    · by_cases hc : c = '_'
      · subst hc
        by_cases he : (rest.takeWhile isDigitChar).isEmpty
        · simp [numGroupsF, he]
        · simp only [numGroupsF, if_neg he, List.cons_append, List.append_assoc, ih]
          rw [List.takeWhile_append_dropWhile]
      · simp [numGroupsF, hc]

/-- Soundness of `numGroups`: consumed ++ rest = input. -/
theorem numGroups_sound :
    ∀ cs, (numGroups cs).1 ++ (numGroups cs).2 = cs :=
  fun cs => numGroupsF_sound (cs.length + 1) cs

/-- `tryComment` consumes a non-empty prefix. -/
theorem tryComment_sound {cs t r : List Char} (h : tryComment cs = some (t, r)) :
    cs = t ++ r ∧ t ≠ [] := by
  unfold tryComment at h
  split at h
  · simp only [Option.some.injEq, Prod.mk.injEq] at h
    obtain ⟨ht, hr⟩ := h
    subst ht; subst hr
    simp
  · simp at h

/-- `tryQuoted` consumes a non-empty prefix. -/
theorem tryQuoted_sound {q : Char} {cs t r : List Char} (h : tryQuoted q cs = some (t, r)) :
    cs = t ++ r ∧ t ≠ [] := by
  unfold tryQuoted at h
  split at h
  · rename_i c rest
    split at h
    · rename_i hcq
      rcases hs : scanStringBody q rest with - | ⟨t2, r2⟩ <;> rw [hs] at h
      · simp at h
      · simp only [Option.map_some', Option.some.injEq, Prod.mk.injEq] at h
        obtain ⟨ht, hr⟩ := h
        subst ht; subst hr
        obtain ⟨he, -⟩ := scanStringBody_sound q rest t2 r2 hs
        simp [he]
    · simp at h
  · simp at h

/-- `tryDecorator` consumes a non-empty prefix. -/
theorem tryDecorator_sound {cs t r : List Char} (h : tryDecorator cs = some (t, r)) :
    cs = t ++ r ∧ t ≠ [] := by
  unfold tryDecorator at h
  split at h
  · split at h
    · simp only [Option.some.injEq, Prod.mk.injEq] at h
      obtain ⟨ht, hr⟩ := h
      subst ht; subst hr
      simp [List.takeWhile_append_dropWhile]
    · simp at h
  · simp at h

/-- `tryIdent` consumes a non-empty prefix. -/
theorem tryIdent_sound {prev : Option Char} {cs t r : List Char}
    (h : tryIdent prev cs = some (t, r)) : cs = t ++ r ∧ t ≠ [] := by
  unfold tryIdent at h
  split at h
  · split at h
    · simp only [Option.some.injEq, Prod.mk.injEq] at h
      obtain ⟨ht, hr⟩ := h
      subst ht; subst hr
      simp [List.takeWhile_append_dropWhile]
    · simp at h
  · simp at h

/-- `tryNumber` consumes a non-empty prefix. -/
theorem tryNumber_sound {cs t r : List Char} (h : tryNumber cs = some (t, r)) :
    cs = t ++ r ∧ t ≠ [] := by
  unfold tryNumber at h
  split at h
  · rename_i c rest
    split at h
    · simp only [Option.some.injEq, Prod.mk.injEq] at h
      obtain ⟨ht, hr⟩ := h
      subst ht; subst hr
      refine ⟨?_, by simp⟩
      simp only [List.cons_append, List.append_assoc, List.cons.injEq, true_and]
      rw [numGroups_sound, List.takeWhile_append_dropWhile]
    · simp at h
  · simp at h

/-- `tryWhitespaceRun` consumes a non-empty prefix. -/
theorem tryWhitespaceRun_sound {cs t r : List Char}
    (h : tryWhitespaceRun cs = some (t, r)) : cs = t ++ r ∧ t ≠ [] := by
  unfold tryWhitespaceRun at h
  split at h
  · split at h
    · simp only [Option.some.injEq, Prod.mk.injEq] at h
      obtain ⟨ht, hr⟩ := h
      subst ht; subst hr
      simp [List.takeWhile_append_dropWhile]
    · simp at h
  · simp at h

/-- `tryAnyChar` consumes a non-empty prefix. -/
theorem tryAnyChar_sound {cs t r : List Char} (h : tryAnyChar cs = some (t, r)) :
    cs = t ++ r ∧ t ≠ [] := by
  unfold tryAnyChar at h
  split at h
  · split at h
    · simp at h
    · simp only [Option.some.injEq, Prod.mk.injEq] at h
      obtain ⟨ht, hr⟩ := h
      subst ht; subst hr
      simp
  · simp at h

/-- Every `TOKEN_RE` match consumes a non-empty prefix of the input. -/
theorem nextTok_sound {prev : Option Char} {cs t r : List Char}
    (h : nextTok prev cs = some (t, r)) : cs = t ++ r ∧ t ≠ [] := by
  unfold nextTok at h
  cases h1 : tryComment cs with
  | some p =>
    rw [h1] at h
    obtain rfl : p = (t, r) := by simpa using h
    exact tryComment_sound h1
  | none =>
  rw [h1] at h
  cases h2 : tryQuoted '"' cs with
  | some p =>
    rw [h2] at h
    obtain rfl : p = (t, r) := by simpa using h
    exact tryQuoted_sound h2
  | none =>
  rw [h2] at h
  cases h3 : tryQuoted '\'' cs with
  | some p =>
    rw [h3] at h
    obtain rfl : p = (t, r) := by simpa using h
    exact tryQuoted_sound h3
  | none =>
  rw [h3] at h
  cases h4 : tryDecorator cs with
  | some p =>
    rw [h4] at h
    obtain rfl : p = (t, r) := by simpa using h
    exact tryDecorator_sound h4
  | none =>
  rw [h4] at h
  cases h5 : tryIdent prev cs with
  | some p =>
    rw [h5] at h
    obtain rfl : p = (t, r) := by simpa using h
    exact tryIdent_sound h5
  | none =>
  rw [h5] at h
  cases h6 : tryNumber cs with
  | some p =>
    rw [h6] at h
    obtain rfl : p = (t, r) := by simpa using h
    exact tryNumber_sound h6
  | none =>
  rw [h6] at h
  cases h7 : tryWhitespaceRun cs with
  | some p =>
    rw [h7] at h
    obtain rfl : p = (t, r) := by simpa using h
    exact tryWhitespaceRun_sound h7
  | none =>
  rw [h7] at h
  exact tryAnyChar_sound h

/-- `TOKEN_RE` matches at every position of a non-empty input: a whitespace
character is consumed by `\s+` and anything else (including every non-newline
character) by some alternative, the single-character fallback at worst. Hence
`re.findall` never skips a character of this pattern's input. -/
theorem nextTok_total (prev : Option Char) (c : Char) (rest : List Char) :
    nextTok prev (c :: rest) ≠ none := by
  intro h
  unfold nextTok at h
  cases h1 : tryComment (c :: rest) with
  | some p => rw [h1] at h; simp at h
  | none =>
  rw [h1] at h
  cases h2 : tryQuoted '"' (c :: rest) with
  | some p => rw [h2] at h; simp at h
  | none =>
  rw [h2] at h
  cases h3 : tryQuoted '\'' (c :: rest) with
  | some p => rw [h3] at h; simp at h
  | none =>
  rw [h3] at h
  cases h4 : tryDecorator (c :: rest) with
  | some p => rw [h4] at h; simp at h
  | none =>
  rw [h4] at h
  cases h5 : tryIdent prev (c :: rest) with
  | some p => rw [h5] at h; simp at h
  | none =>
  rw [h5] at h
  cases h6 : tryNumber (c :: rest) with
  | some p => rw [h6] at h; simp at h
  | none =>
  rw [h6] at h
  cases h7 : tryWhitespaceRun (c :: rest) with
  | some p => rw [h7] at h; simp at h
  | none =>
  rw [h7] at h
  -- now `tryWhitespaceRun` and `tryAnyChar` both failed: impossible.
  have h8 : tryAnyChar (c :: rest) = none := h
  by_cases hc : c = '\n'
  · have hsc : isSpaceChar c = true := by rw [hc]; decide
    exact absurd h7 (by simp [tryWhitespaceRun, hsc])
  · exact absurd h8 (by simp [tryAnyChar, hc])

/-- The `re.findall` scan: repeatedly take the next `TOKEN_RE` match. On a
failed match the scanner would advance one character without emitting a token
(this never actually happens — see `nextTok_total`). `prev` carries the
character before the current position for `\b` tests. `fuel` only bounds the
number of scan steps; every step consumes at least one character, so any
`fuel > length` behaves like the unbounded scan. -/
def tokenizeFuel : Nat → Option Char → List Char → List (List Char)
  | 0, _, _ => []
  | fuel + 1, prev, cs =>
    (nextTok prev cs).elim
      (match cs with
       | [] => []
       | c :: rest => tokenizeFuel fuel (some c) rest)
      (fun p => p.1 :: tokenizeFuel fuel p.1.getLast? p.2)

/-- `tokenizeFuel` with always-adequate fuel. -/
def tokenizeAux (prev : Option Char) (cs : List Char) : List (List Char) :=
  tokenizeFuel (cs.length + 1) prev cs

/-- With adequate fuel the scan consumes exactly the input: the emitted
tokens concatenate back to the whole input. -/
theorem tokenizeFuel_flatten :
    ∀ fuel (prev : Option Char) (cs : List Char), cs.length < fuel →
    (tokenizeFuel fuel prev cs).flatten = cs := by
  intro fuel
  induction fuel with
  | zero => intro prev cs h; omega
  | succ fuel ih =>
    intro prev cs hlen
    cases h : nextTok prev cs with
    | some p =>
      have hstep : tokenizeFuel (fuel + 1) prev cs =
          p.1 :: tokenizeFuel fuel p.1.getLast? p.2 := by
        show (nextTok prev cs).elim _ _ = _
        rw [h]
        rfl
      rw [hstep]
      simp only [List.flatten_cons]
      obtain ⟨he, hne⟩ := nextTok_sound h
      have hlt : p.2.length < fuel := by
        have h1 : 0 < p.1.length := List.length_pos.mpr hne
        have h2 : cs.length = p.1.length + p.2.length := by rw [he, List.length_append]
        omega
      rw [ih p.1.getLast? p.2 hlt]
      exact he.symm
    | none =>
      cases cs with
      | nil => rfl
      | cons c rest => exact absurd h (nextTok_total prev c rest)

/-- The tokens returned by `TOKEN_RE.findall` concatenate back to the whole
input (tokenizer coverage at the character level). -/
theorem tokenizeAux_flatten (prev : Option Char) (cs : List Char) :
    (tokenizeAux prev cs).flatten = cs :=
  tokenizeFuel_flatten (cs.length + 1) prev cs (by omega)

/-- A token that begins a `//` line comment. -/
def startsComment (t : List Char) : Bool := pyStartswith t ['/', '/']

/-- `nextTok` on empty input fails (so the scan terminates). -/
theorem nextTok_nil (prev : Option Char) : nextTok prev [] = none := by
  simp [nextTok, tryComment, tryQuoted, tryDecorator, tryIdent, tryNumber,
    tryWhitespaceRun, tryAnyChar]

/-- The token list of empty input is empty, whatever the fuel. -/
theorem tokenizeFuel_nil (fuel : Nat) (prev : Option Char) :
    tokenizeFuel fuel prev [] = [] := by
  cases fuel with
  | zero => rfl
  | succ fuel =>
    rw [tokenizeFuel, nextTok_nil]
    rfl

/-- The token list of empty input is empty. -/
theorem tokenizeAux_nil (prev : Option Char) : tokenizeAux prev [] = [] :=
  tokenizeFuel_nil 1 prev

/-- A quoted-literal token starts with its quote character. -/
theorem tryQuoted_head {q : Char} {cs t r : List Char} (h : tryQuoted q cs = some (t, r)) :
    t.head? = some q := by
  unfold tryQuoted at h
  split at h
  · rename_i c rest
    split at h
    · rename_i hcq
      rcases hs : scanStringBody q rest with - | p <;> rw [hs] at h
      · simp at h
      · simp only [Option.map_some', Option.some.injEq, Prod.mk.injEq] at h
        rw [← h.1, hcq]
        rfl
    · simp at h
  · simp at h

/-- A decorator token starts with `@`. -/
theorem tryDecorator_head {cs t r : List Char} (h : tryDecorator cs = some (t, r)) :
    t.head? = some '@' := by
  unfold tryDecorator at h
  split at h
  · split at h
    · simp only [Option.some.injEq, Prod.mk.injEq] at h
      rw [← h.1]
      rfl
    · simp at h
  · simp at h

/-- An identifier token starts with an identifier-start character. -/
theorem tryIdent_head {prev : Option Char} {cs t r : List Char}
    (h : tryIdent prev cs = some (t, r)) :
    ∃ c, t.head? = some c ∧ isIdentStart c = true := by
  unfold tryIdent at h
  split at h
  · rename_i c rest
    split at h
    · rename_i hb
      simp only [Option.some.injEq, Prod.mk.injEq] at h
      exact ⟨c, by rw [← h.1]; rfl, (Bool.and_eq_true .. ▸ hb).2⟩
    · simp at h
  · simp at h

/-- A number token starts with a digit. -/
theorem tryNumber_head {cs t r : List Char} (h : tryNumber cs = some (t, r)) :
    ∃ c, t.head? = some c ∧ isDigitChar c = true := by
  unfold tryNumber at h
  split at h
  · rename_i c rest
    split at h
    · rename_i hd
      simp only [Option.some.injEq, Prod.mk.injEq] at h
      exact ⟨c, by rw [← h.1]; rfl, hd⟩
    · simp at h
  · simp at h

/-- A whitespace token starts with a whitespace character. -/
theorem tryWhitespaceRun_head {cs t r : List Char} (h : tryWhitespaceRun cs = some (t, r)) :
    ∃ c, t.head? = some c ∧ isSpaceChar c = true := by
  unfold tryWhitespaceRun at h
  split at h
  · rename_i c rest
    split at h
    · rename_i hd
      simp only [Option.some.injEq, Prod.mk.injEq] at h
      exact ⟨c, by rw [← h.1]; rfl, hd⟩
    · simp at h
  · simp at h

/-- A fallback token is a single character. -/
theorem tryAnyChar_shape {cs t r : List Char} (h : tryAnyChar cs = some (t, r)) :
    ∃ c, t = [c] := by
  unfold tryAnyChar at h
  split at h
  · rename_i c rest
    split at h
    · simp at h
    · simp only [Option.some.injEq, Prod.mk.injEq] at h
      exact ⟨c, h.1.symm⟩
  · simp at h

/-- Only the comment alternative can produce a token starting with `//`, and
on newline-free input that token absorbs the whole remaining input. -/
theorem nextTok_comment {prev : Option Char} {cs t r : List Char}
    (h : nextTok prev cs = some (t, r)) (hsc : startsComment t = true)
    (hnl : ∀ c ∈ cs, c ≠ '\n') : r = [] := by
  obtain ⟨t2, rfl⟩ : ∃ t2, t = '/' :: '/' :: t2 := by
    unfold startsComment pyStartswith at hsc
    rcases t with - | ⟨a, - | ⟨b, t3⟩⟩
    · simp [List.isPrefixOf] at hsc
    · simp [List.isPrefixOf] at hsc
    · refine ⟨t3, ?_⟩
      simp [List.isPrefixOf] at hsc
      obtain ⟨ha, hb⟩ := hsc
      rw [← ha, ← hb]
  unfold nextTok at h
  cases h1 : tryComment cs with
  | some p =>
    rw [h1] at h
    obtain rfl : p = ('/' :: '/' :: t2, r) := by simpa using h
    unfold tryComment at h1
    split at h1
    · rename_i rest
      simp only [Option.some.injEq, Prod.mk.injEq] at h1
      have hr : r = rest.dropWhile (fun c => c ≠ '\n') := h1.2.symm
      have hmem : ∀ c ∈ rest, c ≠ '\n' := by
        intro c hc
        exact hnl c (by simp [hc])
      rw [hr, List.dropWhile_eq_nil_iff]
      intro x hx
      simp [hmem x hx]
    · simp at h1
  | none =>
  rw [h1] at h
  cases h2 : tryQuoted '"' cs with
  | some p =>
    rw [h2] at h
    obtain rfl : p = ('/' :: '/' :: t2, r) := by simpa using h
    have := tryQuoted_head h2
    simp at this
  | none =>
  rw [h2] at h
  cases h3 : tryQuoted '\'' cs with
  | some p =>
    rw [h3] at h
    obtain rfl : p = ('/' :: '/' :: t2, r) := by simpa using h
    have := tryQuoted_head h3
    simp at this
  | none =>
  rw [h3] at h
  cases h4 : tryDecorator cs with
  | some p =>
    rw [h4] at h
    obtain rfl : p = ('/' :: '/' :: t2, r) := by simpa using h
    have := tryDecorator_head h4
    simp at this
  | none =>
  rw [h4] at h
  cases h5 : tryIdent prev cs with
  | some p =>
    rw [h5] at h
    obtain rfl : p = ('/' :: '/' :: t2, r) := by simpa using h
    obtain ⟨c, hch, hstart⟩ := tryIdent_head h5
    obtain rfl : c = '/' := by simpa using hch.symm
    exact absurd hstart (by decide)
  | none =>
  rw [h5] at h
  cases h6 : tryNumber cs with
  | some p =>
    rw [h6] at h
    obtain rfl : p = ('/' :: '/' :: t2, r) := by simpa using h
    obtain ⟨c, hch, hstart⟩ := tryNumber_head h6
    obtain rfl : c = '/' := by simpa using hch.symm
    exact absurd hstart (by decide)
  | none =>
  rw [h6] at h
  cases h7 : tryWhitespaceRun cs with
  | some p =>
    rw [h7] at h
    obtain rfl : p = ('/' :: '/' :: t2, r) := by simpa using h
    obtain ⟨c, hch, hstart⟩ := tryWhitespaceRun_head h7
    obtain rfl : c = '/' := by simpa using hch.symm
    exact absurd hstart (by decide)
  | none =>
  rw [h7] at h
  have h8 : tryAnyChar cs = some ('/' :: '/' :: t2, r) := h
  obtain ⟨c, hc⟩ := tryAnyChar_shape h8
  simp at hc

/-- On newline-free input every token except possibly the last one is a
non-comment token: a comment absorbs the rest of the line. -/
theorem tokenizeFuel_commentLast :
    ∀ fuel (prev : Option Char) (cs : List Char), cs.length < fuel →
    (∀ c ∈ cs, c ≠ '\n') →
    ∀ t ∈ (tokenizeFuel fuel prev cs).dropLast, startsComment t = false := by
  intro fuel
  induction fuel with
  | zero => intro prev cs h; omega
  | succ fuel ih =>
    intro prev cs hlen hnl
    cases h : nextTok prev cs with
    | some p =>
      have hstep : tokenizeFuel (fuel + 1) prev cs =
          p.1 :: tokenizeFuel fuel p.1.getLast? p.2 := by
        show (nextTok prev cs).elim _ _ = _
        rw [h]
        rfl
      rw [hstep]
      obtain ⟨he, hne⟩ := nextTok_sound h
      have hlt : p.2.length < fuel := by
        have h1 : 0 < p.1.length := List.length_pos.mpr hne
        have h2 : cs.length = p.1.length + p.2.length := by rw [he, List.length_append]
        omega
      have hnl2 : ∀ c ∈ p.2, c ≠ '\n' := by
        intro c hc
        exact hnl c (by rw [he]; exact List.mem_append_right _ hc)
      by_cases hsc : startsComment p.1
      · have hnil : p.2 = [] := nextTok_comment h hsc hnl
        rw [hnil, tokenizeFuel_nil]
        simp
      · rcases htail : tokenizeFuel fuel p.1.getLast? p.2 with - | ⟨x, xs⟩
        · simp
        · intro t ht
          rw [List.dropLast_cons₂] at ht
          rcases List.mem_cons.mp ht with rfl | hmem
          · exact Bool.not_eq_true _ ▸ hsc
          · have := ih p.1.getLast? p.2 hlt hnl2
            rw [htail] at this
            exact this t hmem
    | none =>
      cases cs with
      | nil =>
        rw [tokenizeFuel_nil]
        simp
      | cons c rest => exact absurd h (nextTok_total prev c rest)

/-- On newline-free input every token except possibly the last one is a
non-comment token. -/
theorem tokenizeAux_commentLast (prev : Option Char) (cs : List Char) :
    (∀ c ∈ cs, c ≠ '\n') →
    ∀ t ∈ (tokenizeAux prev cs).dropLast, startsComment t = false :=
  tokenizeFuel_commentLast (cs.length + 1) prev cs (by omega)

/-! ## `highlight_code_line` (source lines 442–480) and its token predicates -/

/-- `JAVA_KEYWORDS` (source lines 28–68). -/
def JAVA_KEYWORDS : List String :=
  ["if", "else", "for", "while", "switch", "case", "default", "return", "try",
   "catch", "finally", "throw", "throws", "new", "class", "interface", "enum",
   "extends", "implements", "public", "private", "protected", "static",
   "final", "void", "int", "long", "float", "double", "boolean", "char",
   "byte", "short", "this", "super", "import", "package", "override", "assert"]

/-- `JAVA_LITERALS` (source line 69). -/
def JAVA_LITERALS : List String := ["true", "false", "null"]

/-- `token in JAVA_KEYWORDS`. -/
def inKeywords (t : List Char) : Bool := JAVA_KEYWORDS.contains (String.mk t)

/-- `token in JAVA_LITERALS`. -/
def inLiterals (t : List Char) : Bool := JAVA_LITERALS.contains (String.mk t)

/-- Acceptor for the `(?:_\d+)*$` tail of `NUMBER_TOKEN_RE`. `fuel` only
bounds the number of loop iterations; every iteration consumes at least two
characters, so any `fuel > length` behaves like the unbounded loop. -/
def numTailAcceptF : Nat → List Char → Bool
  | 0, _ => false
  | _ + 1, [] => true
  | fuel + 1, '_' :: rest =>
    if (rest.takeWhile isDigitChar).isEmpty then false
    else numTailAcceptF fuel (rest.dropWhile isDigitChar)
  | _ + 1, _ :: _ => false

/-- `numTailAcceptF` with always-adequate fuel. -/
def numTailAccept (cs : List Char) : Bool := numTailAcceptF (cs.length + 1) cs

/-- `NUMBER_TOKEN_RE.match(token)` (source line 26): `^\d+(?:_\d+)*$`. -/
def isNumberTok (t : List Char) : Bool :=
  !(t.takeWhile isDigitChar).isEmpty && numTailAccept (t.dropWhile isDigitChar)

/-- `IDENTIFIER_TOKEN_RE.match(token)` (source line 27): `^[A-Za-z_]\w*$`. -/
def isIdentTok : List Char → Bool
  | [] => false
  | c :: rest => isIdentStart c && rest.all isWordChar

/-- A styled code run at the character level: token text plus the color and
bold/italic flags chosen by `highlight_code_line`. -/
structure CRun where
  text : List Char
  color : String
  bold : Bool
  italic : Bool
deriving Repr, DecidableEq

/-- The per-token style decision of `highlight_code_line`\'s loop body
(source lines 449–479), for a non-comment token. `rest` is the token list
after the current token, used for the parenthesis lookahead
(`tokens[idx+1:]`). -/
def classifyTok (token : List Char) (rest : List (List Char)) : CRun :=
  if (token.head? == some '"' || token.head? == some '\'') && decide (2 ≤ token.length) then
    ⟨token, "86EFAC", false, false⟩
  else if pyStartswith token ['@'] then ⟨token, "F0ABFC", true, false⟩
  else if isNumberTok token then ⟨token, "FDBA74", false, false⟩
  else if inLiterals token then ⟨token, "FCA5A5", true, false⟩
  else if inKeywords token then ⟨token, "93C5FD", true, false⟩
  else if isIdentTok token then
    let after := rest.dropWhile (fun u => pyIsspace u)
    if after.head? == some ['('] && !inKeywords token then ⟨token, "C4B5FD", false, false⟩
    else if token.head?.elim false isUpperChar then ⟨token, "67E8F9", false, false⟩
    else ⟨token, "E2E8F0", false, false⟩
  else ⟨token, "E2E8F0", false, false⟩

/-- The token loop of `highlight_code_line`: a `//` comment token is emitted
as an italic gray run and the loop breaks; every other token is classified
and the loop continues. -/
def highlightGo : List (List Char) → List CRun
  | [] => []
  | t :: rest =>
    if startsComment t then [⟨t, "94A3B8", false, true⟩]
    else classifyTok t rest :: highlightGo rest

/-- `RunData` (source lines 99–105). -/
structure RunData where
  text : String
  color : String
  bold : Bool
  italic : Bool
  hyperlink_rid : Option String
deriving Repr, DecidableEq

/-- Lift a character-level run to a `RunData` (the tokenizer never sets a
hyperlink). -/
def crunToRun (r : CRun) : RunData := ⟨String.mk r.text, r.color, r.bold, r.italic, none⟩

/-- `TOKEN_RE.findall(line)`. -/
def pyTokens (line : String) : List (List Char) := tokenizeAux none line.toList

/-- `highlight_code_line` (source lines 442–480). -/
def highlight_code_line (line : String) : List RunData :=
  (highlightGo (pyTokens line)).map crunToRun

/-- Every branch of the classifier keeps the token text unchanged. -/
theorem classifyTok_text (token : List Char) (rest : List (List Char)) :
    (classifyTok token rest).text = token := by
  unfold classifyTok
  dsimp only
  repeat' split
  all_goals rfl

/-- Folding `++` over strings concatenates the underlying character lists. -/
theorem string_foldl_append (init : String) (l : List String) :
    List.foldl (fun r s => r ++ s) init l = ⟨init.data ++ (l.map String.data).flatten⟩ := by
  induction l generalizing init with
  | nil => simp [String.ext_iff]
  | cons a l ih =>
    simp only [List.foldl_cons, ih]
    simp [String.ext_iff]

/-- `String.join` over `String.mk`ed character lists is `String.mk` of the
flattened lists. -/
theorem stringJoin_mk (ls : List (List Char)) :
    String.join (ls.map String.mk) = String.mk ls.flatten := by
  show List.foldl (fun r s => r ++ s) "" (ls.map String.mk) = _
  rw [string_foldl_append, List.map_map]
  have h1 : (String.data ∘ String.mk) = id := rfl
  rw [h1, List.map_id]
  rfl

/-- If every non-final token is a non-comment token, the run texts emitted by
the highlight loop flatten to the flattened token list (the break at a
comment loses nothing because the comment is the last token). -/
theorem highlightGo_text_flatten (toks : List (List Char))
    (hcl : ∀ t ∈ toks.dropLast, startsComment t = false) :
    ((highlightGo toks).map CRun.text).flatten = toks.flatten := by
  induction toks with
  | nil => rfl
  | cons t rest ih =>
    by_cases hsc : startsComment t
    · rcases rest with - | ⟨x, xs⟩
      · simp [highlightGo, hsc]
      · have := hcl t (by rw [List.dropLast_cons₂]; exact List.mem_cons_self ..)
        rw [hsc] at this
        cases this
    · rw [highlightGo]
      rw [if_neg (by simp [hsc])]
      simp only [List.map_cons, List.flatten_cons, classifyTok_text]
      rw [ih]
      intro u hu
      rcases rest with - | ⟨x, xs⟩
      · simp at hu
      · exact hcl u (by rw [List.dropLast_cons₂]; exact List.mem_cons_of_mem _ hu)

/-! ## Claim C4/C5 support -/

/-- An identifier token cannot begin a `//` comment. -/
theorem ident_not_comment {t : List Char} (hid : isIdentTok t = true) :
    startsComment t = false := by
  rcases t with - | ⟨c, r⟩
  · simp [isIdentTok] at hid
  · by_cases hc : c = '/'
    · subst hc
      simp only [isIdentTok, Bool.and_eq_true] at hid
      exact absurd hid.1 (by decide)
    · unfold startsComment pyStartswith
      simp only [List.isPrefixOf, Bool.and_eq_true, beq_iff_eq]
      simp [hc]
      intro hcc
      exact absurd hcc.symm hc

/-- The position-indexed behaviour of the highlight loop: as long as no
earlier token is a comment, the `i`-th run is the classification of the
`i`-th token against the tokens after it. -/
theorem highlightGo_get (toks : List (List Char)) :
    ∀ (i : Nat) (token : List Char), toks[i]? = some token →
    (∀ j, j < i → ∀ u, toks[j]? = some u → startsComment u = false) →
    startsComment token = false →
    (highlightGo toks)[i]? = some (classifyTok token (toks.drop (i + 1))) := by
  induction toks with
  | nil => intro i token hget; simp at hget
  | cons t rest ih =>
    intro i token hget hnc hsc
    rcases i with - | i
    · simp only [List.getElem?_cons_zero, Option.some.injEq] at hget
      subst hget
      rw [highlightGo, if_neg (by simp [hsc])]
      simp
    · have ht : startsComment t = false := hnc 0 (by omega) t (by simp)
      rw [highlightGo, if_neg (by simp [ht])]
      simp only [List.getElem?_cons_succ, List.drop_succ_cons]
      exact ih i token (by simpa using hget)
        (fun j hj u hu => hnc (j + 1) (by omega) u (by simpa using hu)) hsc

/-- Identifier tokens held by the literal/keyword sets: the two sets are
disjoint, so checking literals before keywords (the code) agrees with
checking keywords before literals (the spec). -/
theorem literal_not_keyword {t : List Char} (hl : inLiterals t = true) :
    inKeywords t = false := by
  unfold inLiterals at hl
  have hmem : String.mk t = "true" ∨ String.mk t = "false" ∨ String.mk t = "null" := by
    have := (List.contains_iff_exists_mem_beq ..).mp hl
    simpa [JAVA_LITERALS] using this
  unfold inKeywords
  rcases hmem with h | h | h <;> rw [h] <;> decide

/-- An identifier-start character is not a digit (`Char` order is the
numeric order of the code points). -/
theorem identStart_not_digit {c : Char} (h1 : isIdentStart c = true)
    (h2 : isDigitChar c = true) : False := by
  unfold isIdentStart at h1
  unfold isDigitChar at h2
  simp only [Bool.or_eq_true, Bool.and_eq_true, decide_eq_true_eq] at h1 h2
  obtain ⟨hlo, hhi⟩ := h2
  have hlo2 : (48 : Nat) ≤ c.toNat := hlo
  have hhi2 : c.toNat ≤ 57 := hhi
  rcases h1 with (⟨ha, hb⟩ | ⟨ha, hb⟩) | ha
  · have ha2 : (97 : Nat) ≤ c.toNat := ha
    omega
  · have hb2 : c.toNat ≤ 90 := hb
    have ha2 : (65 : Nat) ≤ c.toNat := ha
    omega
  · subst ha
    exact absurd hhi (by decide)

/-- The classification rule for identifier tokens as the spec words it
(§4.3): keyword set → keyword style; else literal set → literal style; else
next non-whitespace token is an opening parenthesis → call style; else
leading upper-case → type style; else default. This definition follows the
SPEC text and is compared against `classifyTok`, which follows the code. -/
def specIdentRun (token : List Char) (rest : List (List Char)) : CRun :=
  if inKeywords token then ⟨token, "93C5FD", true, false⟩
  else if inLiterals token then ⟨token, "FCA5A5", true, false⟩
  else if (rest.dropWhile (fun u => pyIsspace u)).head? == some ['('] then
    ⟨token, "C4B5FD", false, false⟩
  else if token.head?.elim false isUpperChar then ⟨token, "67E8F9", false, false⟩
  else ⟨token, "E2E8F0", false, false⟩

/-- On identifier tokens the code\'s classification agrees with the spec\'s
five-case rule. -/
theorem classifyTok_ident (token : List Char) (rest : List (List Char))
    (hid : isIdentTok token = true) :
    classifyTok token rest = specIdentRun token rest := by
  obtain ⟨c, r, rfl⟩ : ∃ c r, token = c :: r := by
    rcases token with - | ⟨c, r⟩
    · simp [isIdentTok] at hid
    · exact ⟨c, r, rfl⟩
  have hstart : isIdentStart c = true := by
    simp only [isIdentTok, Bool.and_eq_true] at hid
    exact hid.1
  have hnq1 : (c == '"') = false := by
    cases hcc : c == '"'
    · rfl
    · have hc : c = '"' := by simpa using hcc
      subst hc
      exact absurd hstart (by decide)
  have hnq2 : (c == '\'') = false := by
    cases hcc : c == '\''
    · rfl
    · have hc : c = '\'' := by simpa using hcc
      subst hc
      exact absurd hstart (by decide)
  have hna : ('@' == c) = false := by
    cases hcc : '@' == c
    · rfl
    · have hc : c = '@' := by simpa using (beq_iff_eq ..).mp hcc |>.symm
      subst hc
      exact absurd hstart (by decide)
  have hd : isDigitChar c = false := by
    cases hdd : isDigitChar c
    · rfl
    · exact (identStart_not_digit hstart hdd).elim
  unfold classifyTok specIdentRun
  rw [if_neg (by simp [hnq1, hnq2]),
      if_neg (by simp [pyStartswith, List.isPrefixOf, hna]),
      if_neg (by simp [isNumberTok, List.takeWhile_cons, hd])]
  by_cases hlit : inLiterals (c :: r)
  · rw [if_pos hlit, if_neg (by simp [literal_not_keyword hlit]), if_pos hlit]
  · rw [if_neg hlit]
    by_cases hkw : inKeywords (c :: r)
    · rw [if_pos hkw, if_pos hkw]
    · rw [if_neg hkw, if_pos hid, if_neg hkw, if_neg hlit]
      simp [hkw]

/-- C4: for every single-line input string, the texts of the runs returned
by `highlight_code_line`, concatenated in order, reproduce the input line
exactly — including when a `//` comment truncates the run loop (the comment
token absorbs the rest of the line) and when characters fall through to the
single-character fallback alternative. -/
theorem C4_highlight_covers_line (line : String)
    (hnl : ∀ c ∈ line.toList, c ≠ '\n') :
    String.join ((highlight_code_line line).map RunData.text) = line := by
  unfold highlight_code_line pyTokens
  rw [List.map_map]
  have hcomp : (RunData.text ∘ crunToRun) = (String.mk ∘ CRun.text) := rfl
  rw [hcomp, ← List.map_map, stringJoin_mk,
    highlightGo_text_flatten _ (tokenizeAux_commentLast none line.toList hnl),
    tokenizeAux_flatten]
  rfl

/-- Witness for C4 at the concrete line `"int x = 10 // count"` (keyword,
identifier, fallback `=`, number, comment). -/
theorem C4_highlight_covers_line_witness :
    String.join ((highlight_code_line "int x = 10 // count").map RunData.text)
      = "int x = 10 // count" :=
  C4_highlight_covers_line "int x = 10 // count" (by decide)

/-- C5: every identifier token the tokenizer produces (at a position not cut
off by an earlier comment token) is styled by exactly the spec\'s rule:
keyword set → keyword style, else literal set → literal style, else
lookahead to the next non-whitespace token being `(` → call style, else
leading upper-case → type style, else default identifier style. -/
theorem C5_identifier_style_rule (line : String) (i : Nat) (token : List Char)
    (hget : (pyTokens line)[i]? = some token)
    (hid : isIdentTok token = true)
    (hnc : ∀ j, j < i → ∀ u, (pyTokens line)[j]? = some u → startsComment u = false) :
    (highlight_code_line line)[i]? =
      some (crunToRun (specIdentRun token ((pyTokens line).drop (i + 1)))) := by
  unfold highlight_code_line
  rw [List.getElem?_map,
    highlightGo_get (pyTokens line) i token hget hnc (ident_not_comment hid),
    Option.map_some', classifyTok_ident token _ hid]

/-- Witness for C5: in `"sum (x)"` the identifier `sum` is followed (after
whitespace) by `(` and receives the call style. -/
theorem C5_identifier_style_rule_witness :
    (pyTokens "sum (x)")[0]? = some ['s', 'u', 'm'] ∧
    isIdentTok ['s', 'u', 'm'] = true ∧
    (highlight_code_line "sum (x)")[0]? =
      some (crunToRun (specIdentRun ['s', 'u', 'm'] ((pyTokens "sum (x)").drop 1))) :=
  ⟨by decide, by decide,
   C5_identifier_style_rule "sum (x)" 0 ['s', 'u', 'm'] (by decide) (by decide)
     (fun j hj _ _ => absurd hj (Nat.not_lt_zero j))⟩

/-! ## Claim C6 support: `str.strip()` idempotence -/

/-- `dropWhile` is idempotent. -/
theorem dropWhile_idem (p : Char → Bool) (l : List Char) :
    (l.dropWhile p).dropWhile p = l.dropWhile p := by
  induction l with
  | nil => rfl
  | cons a l ih =>
    by_cases h : p a
    · rw [List.dropWhile_cons_of_pos h, ih]
    · rw [List.dropWhile_cons_of_neg h, List.dropWhile_cons_of_neg h]

/-- The head of `dropWhile p` never satisfies `p`. -/
theorem dropWhile_head_not (p : Char → Bool) (l : List Char) :
    ∀ c, (l.dropWhile p).head? = some c → p c = false := by
  induction l with
  | nil => intro c h; simp at h
  | cons a l ih =>
    intro c h
    by_cases hp : p a
    · rw [List.dropWhile_cons_of_pos hp] at h
      exact ih c h
    · rw [List.dropWhile_cons_of_neg hp] at h
      simp only [List.head?_cons, Option.some.injEq] at h
      subst h
      exact Bool.not_eq_true _ ▸ hp

/-- A list whose head does not satisfy `p` is unchanged by `dropWhile p`. -/
theorem dropWhile_eq_self_of_head (p : Char → Bool) (l : List Char)
    (h : ∀ c, l.head? = some c → p c = false) : l.dropWhile p = l := by
  cases l with
  | nil => rfl
  | cons a l =>
    have := h a (by simp)
    rw [List.dropWhile_cons_of_neg (by simp [this])]

/-- The suffix kept by `dropWhile` keeps the original last element. -/
theorem dropWhile_getLast? (p : Char → Bool) (l : List Char)
    (h : l.dropWhile p ≠ []) : (l.dropWhile p).getLast? = l.getLast? := by
  obtain ⟨pre, hpre⟩ := (List.dropWhile_suffix (l := l) (p := p))
  calc (l.dropWhile p).getLast?
      = (pre ++ l.dropWhile p).getLast? := (List.getLast?_append_of_ne_nil pre h).symm
    _ = l.getLast? := by rw [hpre]

/-- `str.strip()` is idempotent. -/
theorem pyStripList_idem (l : List Char) :
    pyStripList (pyStripList l) = pyStripList l := by
  unfold pyStripList
  set A := l.dropWhile isSpaceChar with hA
  set B := A.reverse.dropWhile isSpaceChar with hB
  -- heads of `A` and of `B` are not whitespace
  have hheadA : ∀ c, A.head? = some c → isSpaceChar c = false :=
    dropWhile_head_not isSpaceChar l
  have hheadB : ∀ c, B.head? = some c → isSpaceChar c = false :=
    dropWhile_head_not isSpaceChar A.reverse
  -- step 1: `B.reverse` has a non-whitespace head (the last of `B`,
  -- which is the last of `A.reverse`, i.e. the head of `A`).
  have h1 : B.reverse.dropWhile isSpaceChar = B.reverse := by
    apply dropWhile_eq_self_of_head
    intro c hc
    rw [List.head?_reverse] at hc
    rcases hBnil : B with - | ⟨b, bs⟩
    · rw [hBnil] at hc; simp at hc
    · have hne : B ≠ [] := by rw [hBnil]; simp
      have := dropWhile_getLast? isSpaceChar A.reverse (hB ▸ hne)
      rw [← hB] at this
      rw [this] at hc
      rw [List.getLast?_reverse] at hc
      exact hheadA c hc
  rw [h1, List.reverse_reverse]
  have h2 : B.dropWhile isSpaceChar = B := hB ▸ dropWhile_idem isSpaceChar A.reverse
  rw [h2]

/-- C6 counterexample: the bullet rule is NOT idempotent — a plain line gets
a glyph, and re-applying the rule prefixes a second glyph, because a line
starting with the glyph matches neither the dash nor the ordinal markers. -/
theorem C6_counterexample :
    format_body_line (format_body_line "x") ≠ format_body_line "x" := by decide

/-- C6 amended: the case analysis of the bullet rule is as claimed (empty →
empty spacer, marker line → stripped pass-through, other line → glyph
prefix), and the rule is idempotent on the empty and marker cases; but
re-applying it to a glyph-prefixed output adds a second glyph, so full
idempotence fails. -/
theorem C6_bullet_formatting (line : String) :
    (pyStripList line.toList = [] → format_body_line line = "") ∧
    (pyStripList line.toList ≠ [] →
      pyStartswithAny (pyStripList line.toList) bodyLineMarkers = true →
      format_body_line line = String.mk (pyStripList line.toList)) ∧
    (pyStripList line.toList ≠ [] →
      pyStartswithAny (pyStripList line.toList) bodyLineMarkers = false →
      format_body_line line = String.mk ('•' :: ' ' :: pyStripList line.toList)) ∧
    ((pyStripList line.toList = [] ∨
      pyStartswithAny (pyStripList line.toList) bodyLineMarkers = true) →
      format_body_line (format_body_line line) = format_body_line line) := by
  refine ⟨?_, ?_, ?_, ?_⟩
  · intro h
    unfold format_body_line
    rw [h]
    rfl
  · intro hne hmk
    unfold format_body_line
    rw [if_neg (by simpa using hne), if_pos hmk]
  · intro hne hmk
    have hmk2 : pyStartswithAny (pyStripList line.data) bodyLineMarkers = false := hmk
    unfold format_body_line
    rw [if_neg (by simpa using hne), if_neg (by simp [hmk2])]
  · intro hcase
    rcases hcase with hempty | hmk
    · have h1 : format_body_line line = "" := by
        unfold format_body_line
        rw [hempty]
        rfl
      rw [h1]
      decide
    · have hne : ¬(pyStripList line.toList).isEmpty = true := by
        intro hc
        have : pyStripList line.toList = [] := by simpa using hc
        rw [this] at hmk
        simp [pyStartswithAny, pyStartswith, bodyLineMarkers, List.isPrefixOf] at hmk
      have h1 : format_body_line line = String.mk (pyStripList line.toList) := by
        unfold format_body_line
        rw [if_neg hne, if_pos hmk]
      rw [h1]
      unfold format_body_line
      have htl : (String.mk (pyStripList line.toList)).toList = pyStripList line.toList := rfl
      rw [htl, pyStripList_idem, if_neg hne, if_pos hmk]

/-- Witness for C6 at the marker line `"- item"` and the blank line `" "`. -/
theorem C6_bullet_formatting_witness :
    format_body_line (format_body_line "- item") = format_body_line "- item" ∧
    format_body_line (format_body_line " ") = format_body_line " " :=
  ⟨(C6_bullet_formatting "- item").2.2.2 (Or.inr (by decide)),
   (C6_bullet_formatting " ").2.2.2 (Or.inl (by decide))⟩

/-! ## PNG encoder (source lines 1233–1247) -/

/-- `struct.pack(">I", n)`: 4 bytes, big-endian (callers always pass
`n < 2^32`; the `% 256` makes the modelling total). -/
def be32 (n : Nat) : List Nat :=
  [n / 2 ^ 24 % 256, n / 2 ^ 16 % 256, n / 2 ^ 8 % 256, n % 256]

/-- Decode 4 big-endian bytes (an independent re-reading of a 4-byte field,
used to state the framing claim). -/
def readBE32 : List Nat → Nat
  | [a, b, c, d] => ((a * 256 + b) * 256 + c) * 256 + d
  | _ => 0

/-- One bit-step of the reflected CRC-32 polynomial 0xEDB88320. -/
def crcRound (c : Nat) : Nat :=
  if c % 2 = 1 then Nat.xor (c / 2) 0xEDB88320 else c / 2

/-- Fold one byte into the CRC state (8 bit-steps). -/
def crcByte (c b : Nat) : Nat :=
  crcRound (crcRound (crcRound (crcRound (crcRound (crcRound (crcRound (crcRound (Nat.xor c b))))))))

/-- `zlib.crc32(data)`: standard CRC-32 with initial value and final xor
`0xFFFFFFFF`. -/
def crc32 (data : List Nat) : Nat :=
  Nat.xor (data.foldl crcByte 0xFFFFFFFF) 0xFFFFFFFF

/-- `png_chunk` (source lines 1245–1247):
`pack(">I", len(data)) + type + data + pack(">I", crc32(type + data) & 0xFFFFFFFF)`. -/
def png_chunk (chunk_type data : List Nat) : List Nat :=
  be32 data.length ++ chunk_type ++ data ++
    be32 (Nat.land (crc32 (chunk_type ++ data)) 0xFFFFFFFF)

/-- `b"\x89PNG\r\n\x1a\n"`. -/
def pngSignature : List Nat := [0x89, 0x50, 0x4E, 0x47, 0x0D, 0x0A, 0x1A, 0x0A]

/-- `RasterCanvas.to_png_bytes` (source lines 1233–1242): each row prefixed
with filter byte 0, concatenated, deflate-compressed (`compress` stands for
`zlib.compress(·, level=9)`), then signature + IHDR + IDAT + IEND. -/
def to_png_bytes (compress : List Nat → List Nat) (width height : Nat)
    (rows : List (List Nat)) : List Nat :=
  let raw := (rows.map (fun row => 0 :: row)).flatten
  let compressed := compress raw
  let ihdr := be32 width ++ be32 height ++ [8, 2, 0, 0, 0]
  pngSignature ++ png_chunk [73, 72, 68, 82] ihdr ++
    png_chunk [73, 68, 65, 84] compressed ++ png_chunk [73, 69, 78, 68] []

/-- `crcRound` keeps the state below `2^32`. -/
theorem crcRound_lt (c : Nat) (h : c < 2 ^ 32) : crcRound c < 2 ^ 32 := by
  unfold crcRound
  split
  · exact Nat.xor_lt_two_pow (by omega) (by norm_num)
  · omega

/-- The CRC state stays below `2^32`. -/
theorem crcByte_lt (c b : Nat) (hc : c < 2 ^ 32) (hb : b < 2 ^ 32) :
    crcByte c b < 2 ^ 32 := by
  unfold crcByte
  have h0 : Nat.xor c b < 2 ^ 32 := Nat.xor_lt_two_pow hc hb
  exact crcRound_lt _ (crcRound_lt _ (crcRound_lt _ (crcRound_lt _ (crcRound_lt _
    (crcRound_lt _ (crcRound_lt _ (crcRound_lt _ h0)))))))

/-- `crc32` of byte data is below `2^32`, so the `& 0xFFFFFFFF` in
`png_chunk` is the identity. -/
theorem crc32_lt (data : List Nat) (hd : ∀ b ∈ data, b < 256) :
    crc32 data < 2 ^ 32 := by
  unfold crc32
  have hfold : ∀ (l : List Nat), (∀ b ∈ l, b < 256) → ∀ c, c < 2 ^ 32 →
      l.foldl crcByte c < 2 ^ 32 := by
    intro l
    induction l with
    | nil => intro _ c hc; exact hc
    | cons a l ih =>
      intro hl c hc
      simp only [List.foldl_cons]
      exact ih (fun b hb => hl b (List.mem_cons_of_mem _ hb)) _
        (crcByte_lt c a hc (by have := hl a (List.mem_cons_self ..); omega))
  exact Nat.xor_lt_two_pow (hfold data hd 0xFFFFFFFF (by norm_num)) (by norm_num)

/-- Masking a value below `2^32` with `0xFFFFFFFF` is the identity. -/
theorem land_mask_eq (x : Nat) (h : x < 2 ^ 32) : Nat.land x 0xFFFFFFFF = x := by
  have h1 : Nat.land x 0xFFFFFFFF = x &&& (2 ^ 32 - 1) := by norm_num [HAnd.hAnd, AndOp.and]
  rw [h1, Nat.and_pow_two_sub_one_eq_mod, Nat.mod_eq_of_lt h]

/-- `be32` round-trips through an independent big-endian decode. -/
theorem readBE32_be32 (n : Nat) (h : n < 2 ^ 32) : readBE32 (be32 n) = n := by
  have hred : readBE32 (be32 n) =
      ((n / 2 ^ 24 % 256 * 256 + n / 2 ^ 16 % 256) * 256 + n / 2 ^ 8 % 256) * 256 + n % 256 :=
    rfl
  rw [hred]
  omega

/-- C7: every chunk the PNG encoder emits is exactly
`length(4B, big-endian) | type | data | CRC32(type‖data)(4B, big-endian)`:
the leading 4 bytes decode to `len(data)`, the type and data follow
unchanged, the trailing 4 bytes are the CRC computed over type+data only
(never the length field), and the full stream is the 8-byte signature
followed by the IHDR, IDAT and IEND chunks in that order. -/
theorem C7_png_chunk_framing (chunk_type data : List Nat)
    (hbytes : ∀ b ∈ chunk_type ++ data, b < 256) (hlen : data.length < 2 ^ 32) :
    png_chunk chunk_type data
      = be32 data.length ++ chunk_type ++ data ++ be32 (crc32 (chunk_type ++ data)) ∧
    (png_chunk chunk_type data).take 4 = be32 data.length ∧
    readBE32 ((png_chunk chunk_type data).take 4) = data.length ∧
    ((png_chunk chunk_type data).drop 4).take chunk_type.length = chunk_type ∧
    (((png_chunk chunk_type data).drop 4).drop chunk_type.length).take data.length = data ∧
    (png_chunk chunk_type data).drop (4 + chunk_type.length + data.length)
      = be32 (crc32 (chunk_type ++ data)) ∧
    ∀ (compress : List Nat → List Nat) (w h : Nat) (rows : List (List Nat)),
      to_png_bytes compress w h rows
        = pngSignature
          ++ png_chunk [73, 72, 68, 82] (be32 w ++ be32 h ++ [8, 2, 0, 0, 0])
          ++ png_chunk [73, 68, 65, 84] (compress ((rows.map (fun row => 0 :: row)).flatten))
          ++ png_chunk [73, 69, 78, 68] [] := by
  have hcrc : crc32 (chunk_type ++ data) < 2 ^ 32 := crc32_lt _ hbytes
  have hmask : Nat.land (crc32 (chunk_type ++ data)) 0xFFFFFFFF
      = crc32 (chunk_type ++ data) := land_mask_eq _ hcrc
  have hmain : png_chunk chunk_type data
      = be32 data.length ++ chunk_type ++ data ++ be32 (crc32 (chunk_type ++ data)) := by
    unfold png_chunk
    rw [hmask]
  have hA : (be32 data.length).length = 4 := rfl
  have hassoc : png_chunk chunk_type data
      = be32 data.length ++ (chunk_type ++ (data ++ be32 (crc32 (chunk_type ++ data)))) := by
    rw [hmain]
    simp [List.append_assoc]
  have htake4 : (png_chunk chunk_type data).take 4 = be32 data.length := by
    rw [hassoc, ← hA]
    exact List.take_left ..
  have hdrop4 : (png_chunk chunk_type data).drop 4
      = chunk_type ++ (data ++ be32 (crc32 (chunk_type ++ data))) := by
    rw [hassoc, ← hA]
    exact List.drop_left ..
  have htail : (png_chunk chunk_type data).drop (4 + chunk_type.length + data.length)
      = be32 (crc32 (chunk_type ++ data)) := by
    have hsplit : png_chunk chunk_type data
        = (be32 data.length ++ chunk_type ++ data) ++ be32 (crc32 (chunk_type ++ data)) := by
      rw [hmain]
    rw [hsplit,
      show 4 + chunk_type.length + data.length
          = (be32 data.length ++ chunk_type ++ data).length from by
        simp [List.length_append, hA]
        omega]
    exact List.drop_left ..
  refine ⟨hmain, htake4, ?_, ?_, ?_, htail, ?_⟩
  · rw [htake4]
    exact readBE32_be32 _ hlen
  · rw [hdrop4]
    exact List.take_left ..
  · rw [hdrop4, List.drop_left]
    exact List.take_left ..
  · intro compress w h rows
    rfl

/-- Witness for C7 at the concrete empty IEND chunk: its length field decodes
to 0 and its trailing bytes are the CRC of the bare type. -/
theorem C7_png_chunk_framing_witness :
    readBE32 ((png_chunk [73, 69, 78, 68] []).take 4) = 0 ∧
    (png_chunk [73, 69, 78, 68] []).drop (4 + 4 + 0) = be32 (crc32 [73, 69, 78, 68]) := by
  have h := C7_png_chunk_framing [73, 69, 78, 68] [] (by decide) (by norm_num)
  refine ⟨h.2.2.1, ?_⟩
  have := h.2.2.2.2.2.1
  simpa using this

/-! ## Raster canvas (source lines 1138–1231)

Coordinates are Python ints (`Int` here); pixel bytes are `Nat` values.
`hex_to_rgb` is only ever called on 6-hex-digit colors; other inputs (which
would raise in Python) default to 0. -/

/-- Value of one hex digit (`int(c, 16)` for a valid digit). -/
def hexDigitVal (c : Char) : Nat :=
  if '0' ≤ c ∧ c ≤ '9' then c.toNat - 48
  else if 'a' ≤ c ∧ c ≤ 'f' then c.toNat - 87
  else if 'A' ≤ c ∧ c ≤ 'F' then c.toNat - 55
  else 0

/-- `hex_to_rgb` (source lines 1138–1139). -/
def hex_to_rgb (color : String) : Nat × Nat × Nat :=
  match color.toList with
  | [c0, c1, c2, c3, c4, c5] =>
    (16 * hexDigitVal c0 + hexDigitVal c1,
     16 * hexDigitVal c2 + hexDigitVal c3,
     16 * hexDigitVal c4 + hexDigitVal c5)
  | _ => (0, 0, 0)

/-- `RasterCanvas`: width, height and the row-major pixel rows
(3 bytes per pixel). -/
structure RasterCanvas where
  width : Nat
  height : Nat
  rows : List (List Nat)
deriving Repr, DecidableEq

/-- `RasterCanvas.__init__` (source lines 1143–1148). -/
def canvasInit (width height : Nat) (background : String) : RasterCanvas :=
  let rgb := hex_to_rgb background
  let row := (List.replicate width [rgb.1, rgb.2.1, rgb.2.2]).flatten
  ⟨width, height, List.replicate height row⟩

/-- `set_pixel` (source lines 1150–1156): silently ignores out-of-bounds
coordinates, otherwise overwrites the 3 bytes of pixel `(x, y)`. -/
def set_pixel (c : RasterCanvas) (x y : Int) (color : String) : RasterCanvas :=
  if 0 ≤ x ∧ x < (c.width : Int) ∧ 0 ≤ y ∧ y < (c.height : Int) then
    let rgb := hex_to_rgb color
    let idx := x.toNat * 3
    let row := c.rows.getD y.toNat []
    let newRow := ((row.set idx rgb.1).set (idx + 1) rgb.2.1).set (idx + 2) rgb.2.2
    ⟨c.width, c.height, c.rows.set y.toNat newRow⟩
  else c

/-- `fill_vertical_gradient` (source lines 1158–1167). The source computes
the interpolation with floats and truncates with `int(...)`; this embedding
performs the same truncation on the exact rational value. -/
def fill_vertical_gradient (c : RasterCanvas) (top bottom : String) : RasterCanvas :=
  let t := hex_to_rgb top
  let b := hex_to_rgb bottom
  let denom : Int := max 1 ((c.height : Int) - 1)
  let chan := fun (tc bc : Nat) (y : Nat) =>
    (Int.tdiv ((tc : Int) * denom + ((bc : Int) - (tc : Int)) * (y : Int)) denom).toNat
  let rowsNew := (List.range c.height).map (fun y =>
    (List.replicate c.width [chan t.1 b.1 y, chan t.2.1 b.2.1 y, chan t.2.2 b.2.2 y]).flatten)
  ⟨c.width, c.height, rowsNew⟩

/-- `fill_rect` (source lines 1169–1181): no-op on non-positive sizes, clips
to the canvas, then overwrites the byte slice `[x0*3, x1*3)` of each row in
`[y0, y1)`. -/
def fill_rect (c : RasterCanvas) (x y w h : Int) (color : String) : RasterCanvas :=
  if w ≤ 0 ∨ h ≤ 0 then c
  else
    let x0 := max 0 x
    let y0 := max 0 y
    let x1 := min (c.width : Int) (x + w)
    let y1 := min (c.height : Int) (y + h)
    if x0 ≥ x1 ∨ y0 ≥ y1 then c
    else
      let rgb := hex_to_rgb color
      let fill := (List.replicate (x1 - x0).toNat [rgb.1, rgb.2.1, rgb.2.2]).flatten
      let rowsNew := c.rows.mapIdx (fun yy row =>
        if y0.toNat ≤ yy ∧ yy < y1.toNat then
          row.take (x0.toNat * 3) ++ fill ++ row.drop (x1.toNat * 3)
        else row)
      ⟨c.width, c.height, rowsNew⟩

/-- `draw_rect` (source lines 1183–1187): four edge fills. -/
def draw_rect (c : RasterCanvas) (x y w h : Int) (color : String) (thickness : Int) :
    RasterCanvas :=
  let c1 := fill_rect c x y w thickness color
  let c2 := fill_rect c1 x (y + h - thickness) w thickness color
  let c3 := fill_rect c2 x y thickness h color
  fill_rect c3 (x + w - thickness) y thickness h color

/-- `range(a, b)` over the integers. -/
def intRange (a b : Int) : List Int :=
  (List.range (b - a).toNat).map (fun i => a + i)

/-- `fill_circle` (source lines 1189–1196): squared-distance inclusion test,
all writes through the clipping `set_pixel`. -/
def fill_circle (c : RasterCanvas) (cx cy radius : Int) (color : String) : RasterCanvas :=
  (intRange (cy - radius) (cy + radius + 1)).foldl (fun acc y =>
    (intRange (cx - radius) (cx + radius + 1)).foldl (fun acc2 x =>
      if (x - cx) * (x - cx) + (y - cy) * (y - cy) ≤ radius * radius then
        set_pixel acc2 x y color
      else acc2) acc) c

/-- `fill_rounded_rect` (source lines 1198–1206): a cross of straight fills
plus four corner circles (the deliberate approximation). `//` is Python
floor division (`Int.fdiv`). -/
def fill_rounded_rect (c : RasterCanvas) (x y w h radius : Int) (color : String) :
    RasterCanvas :=
  let r := max 0 (min radius (min (Int.fdiv w 2) (Int.fdiv h 2)))
  let c1 := fill_rect c (x + r) y (w - 2 * r) h color
  let c2 := fill_rect c1 x (y + r) r (h - 2 * r) color
  let c3 := fill_rect c2 (x + w - r) (y + r) r (h - 2 * r) color
  let c4 := fill_circle c3 (x + r) (y + r) r color
  let c5 := fill_circle c4 (x + w - r - 1) (y + r) r color
  let c6 := fill_circle c5 (x + r) (y + h - r - 1) r color
  fill_circle c6 (x + w - r - 1) (y + h - r - 1) r color

/-- The Bresenham loop of `_draw_line_single` (source lines 1208–1224).
`fuel` bounds the iteration count; the source loop runs exactly
`max(dx, |dy|) + 1` iterations, which is below the fuel the wrapper passes. -/
def drawLineSingleGo : Nat → RasterCanvas → Int → Int → Int → Int →
    Int → Int → Int → Int → Int → String → RasterCanvas
  | 0, c, _, _, _, _, _, _, _, _, _, _ => c
  | fuel + 1, c, x1, y1, x2, y2, dx, dy, sx, sy, err, color =>
    let c1 := set_pixel c x1 y1 color
    if x1 = x2 ∧ y1 = y2 then c1
    else
      let e2 := 2 * err
      let err1 := if e2 ≥ dy then err + dy else err
      let x1n := if e2 ≥ dy then x1 + sx else x1
      let err2 := if e2 ≤ dx then err1 + dx else err1
      let y1n := if e2 ≤ dx then y1 + sy else y1
      drawLineSingleGo fuel c1 x1n y1n x2 y2 dx dy sx sy err2 color

/-- `_draw_line_single` (source lines 1208–1224). -/
def drawLineSingle (c : RasterCanvas) (x1 y1 x2 y2 : Int) (color : String) : RasterCanvas :=
  let dx := |x2 - x1|
  let sx : Int := if x1 < x2 then 1 else -1
  let dy := -|y2 - y1|
  let sy : Int := if y1 < y2 then 1 else -1
  let err := dx + dy
  drawLineSingleGo ((dx - dy).toNat + 1) c x1 y1 x2 y2 dx dy sx sy err color

/-- `draw_line` (source lines 1226–1231): stamps the single line over a disk
of offsets of the given thickness. -/
def draw_line (c : RasterCanvas) (x1 y1 x2 y2 : Int) (color : String) (thickness : Int) :
    RasterCanvas :=
  let radius := max 0 (Int.fdiv thickness 2)
  (intRange (-radius) (radius + 1)).foldl (fun acc ox =>
    (intRange (-radius) (radius + 1)).foldl (fun acc2 oy =>
      if ox * ox + oy * oy ≤ radius * radius then
        drawLineSingle acc2 (x1 + ox) (y1 + oy) (x2 + ox) (y2 + oy) color
      else acc2) acc) c

/-- `draw_arrow` (source lines 1250–1268): main line plus two wing lines.
The wing endpoints `lx, ly, rx, ry` are computed in the source with
floating-point arithmetic (unit direction vector, `int(...)` truncation);
they enter here as parameters since every choice hits the same clipping
writes. A zero-length arrow draws only the main line. -/
def draw_arrow (c : RasterCanvas) (x1 y1 x2 y2 lx ly rx ry : Int) (color : String) :
    RasterCanvas :=
  let c1 := draw_line c x1 y1 x2 y2 color 5
  if x2 - x1 = 0 ∧ y2 - y1 = 0 then c1
  else
    let c2 := draw_line c1 x2 y2 lx ly color 4
    draw_line c2 x2 y2 rx ry color 4

/-- Structural well-formedness of a canvas: as many rows as the height, and
every row holds exactly 3 bytes per pixel — no write ever lands outside this
region. -/
def wellFormed (c : RasterCanvas) : Prop :=
  c.rows.length = c.height ∧ ∀ row ∈ c.rows, row.length = 3 * c.width

/-- Geometry invariant used to state C9: fixed dimensions, one row per
scanline, 3 bytes per pixel. An operation that preserves `geomOK` cannot
have written any byte outside the canvas region. -/
def geomOK (W H : Nat) (c : RasterCanvas) : Prop :=
  c.width = W ∧ c.height = H ∧ c.rows.length = H ∧ ∀ row ∈ c.rows, row.length = 3 * W

/-- Flattened triple-replicate length. -/
theorem replicate_triple_flatten_length (n a b c : Nat) :
    ((List.replicate n [a, b, c]).flatten).length = 3 * n := by
  induction n with
  | zero => rfl
  | succ n ih =>
    rw [List.replicate_succ, List.flatten_cons, List.length_append, ih]
    simp
    omega

/-- Membership characterization for `mapIdx`. -/
theorem mem_mapIdx_rows (f : Nat → List Nat → List Nat) (l : List (List Nat))
    (x : List Nat) (h : x ∈ l.mapIdx f) :
    ∃ i, ∃ hi : i < l.length, x = f i (l.get ⟨i, hi⟩) := by
  obtain ⟨⟨i, hi⟩, hx⟩ := List.mem_iff_get.mp h
  rw [List.length_mapIdx] at hi
  refine ⟨i, hi, ?_⟩
  rw [← hx]
  exact List.get_mapIdx l f i hi _

/-- `set_pixel` preserves the canvas geometry. -/
theorem set_pixel_geom {W H : Nat} {c : RasterCanvas} (hg : geomOK W H c)
    (x y : Int) (color : String) : geomOK W H (set_pixel c x y color) := by
  obtain ⟨hW, hH, hlen, hrow⟩ := hg
  unfold set_pixel
  split
  · rename_i hin
    refine ⟨hW, hH, by simpa [List.length_set] using hlen, ?_⟩
    intro row hr
    rcases List.mem_or_eq_of_mem_set hr with hmem | rfl
    · exact hrow row hmem
    · simp only [List.length_set]
      have hy : y.toNat < c.rows.length := by
        obtain ⟨-, -, hy0, hyh⟩ := hin
        rw [hlen, ← hH]
        omega
      rw [List.getD_eq_getElem _ _ hy]
      exact hrow _ (List.getElem_mem hy)
  · exact ⟨hW, hH, hlen, hrow⟩

/-- `fill_rect` preserves the canvas geometry. -/
theorem fill_rect_geom {W H : Nat} {c : RasterCanvas} (hg : geomOK W H c)
    (x y w h : Int) (color : String) : geomOK W H (fill_rect c x y w h color) := by
  obtain ⟨hW, hH, hlen, hrow⟩ := hg
  unfold fill_rect
  split
  · exact ⟨hW, hH, hlen, hrow⟩
  · dsimp only
    split
    · exact ⟨hW, hH, hlen, hrow⟩
    · rename_i hwh hcl
      refine ⟨hW, hH, by simpa [List.length_mapIdx] using hlen, ?_⟩
      intro row hr
      obtain ⟨i, hi, rfl⟩ := mem_mapIdx_rows _ _ _ hr
      have hold : (c.rows.get ⟨i, hi⟩).length = 3 * W := hrow _ (List.get_mem ..)
      split
      · rename_i hband
        rw [List.length_append, List.length_append, List.length_take, List.length_drop,
          replicate_triple_flatten_length, hold]
        have hx0 : (0 : Int) ≤ max 0 x := le_max_left 0 x
        have hx1 : min (c.width : Int) (x + w) ≤ (c.width : Int) := min_le_left ..
        have hlt : max 0 x < min (c.width : Int) (x + w) := by
          rcases not_or.mp hcl with ⟨h1, -⟩
          omega
        rw [hW] at hx1 hlt
        omega
      · exact hold

/-- `fill_vertical_gradient` preserves the canvas geometry. -/
theorem fill_vertical_gradient_geom {W H : Nat} {c : RasterCanvas} (hg : geomOK W H c)
    (top bottom : String) : geomOK W H (fill_vertical_gradient c top bottom) := by
  obtain ⟨hW, hH, hlen, hrow⟩ := hg
  unfold fill_vertical_gradient
  refine ⟨hW, hH, by simpa using hH, ?_⟩
  intro row hr
  obtain ⟨yy, -, rfl⟩ := List.mem_map.mp hr
  rw [replicate_triple_flatten_length, hW]

/-- Folding a geometry-preserving operation preserves the geometry. -/
theorem foldl_geom {α : Type} {W H : Nat} (f : RasterCanvas → α → RasterCanvas)
    (hf : ∀ c a, geomOK W H c → geomOK W H (f c a)) :
    ∀ (l : List α) (c : RasterCanvas), geomOK W H c → geomOK W H (l.foldl f c) := by
  intro l
  induction l with
  | nil => intro c hc; exact hc
  | cons a l ih =>
    intro c hc
    simp only [List.foldl_cons]
    exact ih _ (hf c a hc)

/-- `draw_rect` preserves the canvas geometry. -/
theorem draw_rect_geom {W H : Nat} {c : RasterCanvas} (hg : geomOK W H c)
    (x y w h : Int) (color : String) (thickness : Int) :
    geomOK W H (draw_rect c x y w h color thickness) := by
  unfold draw_rect
  exact fill_rect_geom (fill_rect_geom (fill_rect_geom (fill_rect_geom hg ..) ..) ..) ..

/-- `fill_circle` preserves the canvas geometry. -/
theorem fill_circle_geom {W H : Nat} {c : RasterCanvas} (hg : geomOK W H c)
    (cx cy radius : Int) (color : String) :
    geomOK W H (fill_circle c cx cy radius color) := by
  unfold fill_circle
  apply foldl_geom
  · intro c1 y hc1
    apply foldl_geom
    · intro c2 x hc2
      split
      · exact set_pixel_geom hc2 ..
      · exact hc2
    · exact hc1
  · exact hg

/-- `fill_rounded_rect` preserves the canvas geometry. -/
theorem fill_rounded_rect_geom {W H : Nat} {c : RasterCanvas} (hg : geomOK W H c)
    (x y w h radius : Int) (color : String) :
    geomOK W H (fill_rounded_rect c x y w h radius color) := by
  unfold fill_rounded_rect
  exact fill_circle_geom (fill_circle_geom (fill_circle_geom (fill_circle_geom
    (fill_rect_geom (fill_rect_geom (fill_rect_geom hg ..) ..) ..) ..) ..) ..) ..

/-- The Bresenham loop preserves the canvas geometry (any fuel). -/
theorem drawLineSingleGo_geom {W H : Nat} :
    ∀ (fuel : Nat) (c : RasterCanvas) (x1 y1 x2 y2 dx dy sx sy err : Int) (color : String),
    geomOK W H c →
    geomOK W H (drawLineSingleGo fuel c x1 y1 x2 y2 dx dy sx sy err color) := by
  intro fuel
  induction fuel with
  | zero => intro c x1 y1 x2 y2 dx dy sx sy err color hc; exact hc
  | succ fuel ih =>
    intro c x1 y1 x2 y2 dx dy sx sy err color hc
    rw [drawLineSingleGo]
    split
    · exact set_pixel_geom hc ..
    · exact ih _ _ _ _ _ _ _ _ _ _ _ (set_pixel_geom hc ..)

/-- `_draw_line_single` preserves the canvas geometry. -/
theorem drawLineSingle_geom {W H : Nat} {c : RasterCanvas} (hg : geomOK W H c)
    (x1 y1 x2 y2 : Int) (color : String) :
    geomOK W H (drawLineSingle c x1 y1 x2 y2 color) :=
  drawLineSingleGo_geom _ _ _ _ _ _ _ _ _ _ _ _ hg

/-- `draw_line` preserves the canvas geometry. -/
theorem draw_line_geom {W H : Nat} {c : RasterCanvas} (hg : geomOK W H c)
    (x1 y1 x2 y2 : Int) (color : String) (thickness : Int) :
    geomOK W H (draw_line c x1 y1 x2 y2 color thickness) := by
  unfold draw_line
  apply foldl_geom
  · intro c1 ox hc1
    apply foldl_geom
    · intro c2 oy hc2
      split
      · exact drawLineSingle_geom hc2 ..
      · exact hc2
    · exact hc1
  · exact hg

/-- `draw_arrow` preserves the canvas geometry. -/
theorem draw_arrow_geom {W H : Nat} {c : RasterCanvas} (hg : geomOK W H c)
    (x1 y1 x2 y2 lx ly rx ry : Int) (color : String) :
    geomOK W H (draw_arrow c x1 y1 x2 y2 lx ly rx ry color) := by
  unfold draw_arrow
  split
  · exact draw_line_geom hg ..
  · exact draw_line_geom (draw_line_geom (draw_line_geom hg ..) ..) ..

/-- C9: every raster drawing operation is total and clips silently:
`set_pixel` with out-of-bounds coordinates returns the canvas unchanged
(and raises nothing), `fill_rect` with non-positive width or height is a
no-op, and every drawing operation preserves the canvas geometry (fixed
dimensions, one row per scanline, 3 bytes per pixel) — so no operation ever
writes a pixel outside the canvas bounds. -/
theorem C9_drawing_ops_clip (W H : Nat) :
    (∀ (c : RasterCanvas) (x y : Int) (color : String),
      ¬(0 ≤ x ∧ x < (c.width : Int) ∧ 0 ≤ y ∧ y < (c.height : Int)) →
      set_pixel c x y color = c) ∧
    (∀ (c : RasterCanvas) (x y w h : Int) (color : String),
      w ≤ 0 ∨ h ≤ 0 → fill_rect c x y w h color = c) ∧
    (∀ c : RasterCanvas, geomOK W H c →
      (∀ x y color, geomOK W H (set_pixel c x y color)) ∧
      (∀ x y w h color, geomOK W H (fill_rect c x y w h color)) ∧
      (∀ x y w h color t, geomOK W H (draw_rect c x y w h color t)) ∧
      (∀ cx cy r color, geomOK W H (fill_circle c cx cy r color)) ∧
      (∀ x y w h r color, geomOK W H (fill_rounded_rect c x y w h r color)) ∧
      (∀ x1 y1 x2 y2 color t, geomOK W H (draw_line c x1 y1 x2 y2 color t)) ∧
      (∀ top bottom, geomOK W H (fill_vertical_gradient c top bottom)) ∧
      (∀ x1 y1 x2 y2 lx ly rx ry color,
        geomOK W H (draw_arrow c x1 y1 x2 y2 lx ly rx ry color))) := by
  refine ⟨?_, ?_, ?_⟩
  · intro c x y color hout
    unfold set_pixel
    rw [if_neg hout]
  · intro c x y w h color hdeg
    unfold fill_rect
    rw [if_pos hdeg]
  · intro c hg
    exact ⟨fun x y color => set_pixel_geom hg x y color,
      fun x y w h color => fill_rect_geom hg x y w h color,
      fun x y w h color t => draw_rect_geom hg x y w h color t,
      fun cx cy r color => fill_circle_geom hg cx cy r color,
      fun x y w h r color => fill_rounded_rect_geom hg x y w h r color,
      fun x1 y1 x2 y2 color t => draw_line_geom hg x1 y1 x2 y2 color t,
      fun top bottom => fill_vertical_gradient_geom hg top bottom,
      fun x1 y1 x2 y2 lx ly rx ry color => draw_arrow_geom hg x1 y1 x2 y2 lx ly rx ry color⟩

/-- Witness for C9 on a concrete 2×2 canvas: an out-of-range `set_pixel` is
the identity, a negative-width `fill_rect` is the identity, and a circle
overlapping the border keeps the geometry intact. -/
theorem C9_drawing_ops_clip_witness :
    set_pixel (canvasInit 2 2 "FFFFFF") 5 0 "000000" = canvasInit 2 2 "FFFFFF" ∧
    fill_rect (canvasInit 2 2 "FFFFFF") 0 0 (-1) 2 "000000" = canvasInit 2 2 "FFFFFF" ∧
    geomOK 2 2 (fill_circle (canvasInit 2 2 "FFFFFF") 1 1 1 "2563EB") :=
  ⟨(C9_drawing_ops_clip 2 2).1 (canvasInit 2 2 "FFFFFF") 5 0 "000000" (by decide),
   (C9_drawing_ops_clip 2 2).2.1 (canvasInit 2 2 "FFFFFF") 0 0 (-1) 2 "000000" (by decide),
   (((C9_drawing_ops_clip 2 2).2.2 (canvasInit 2 2 "FFFFFF")
      ⟨rfl, rfl, by decide, by decide⟩).2.2.2.1 1 1 1 "2563EB")⟩

/-! ## Data model (source lines 72–105) and XML run/paragraph builders -/

/-- `IndexEntry` (source lines 85–89). -/
structure IndexEntry where
  label : String
  subtitle : String
  target_title : String
deriving Repr, DecidableEq

/-- `TableData` (source lines 92–96). -/
structure TableData where
  headers : List String
  rows : List (List String)
  col_widths : Option (List Nat)
deriving Repr, DecidableEq

/-- `SlideData` (source lines 72–82). -/
structure SlideData where
  title : String
  bullets : List String
  code_title : Option String
  code : Option String
  footer : Option String
  image_key : Option String
  image_caption : Option String
  table : Option TableData
  index_entries : Option (List IndexEntry)
deriving Repr, DecidableEq

/-- Python truthiness of an optional string (`if s:`): present and
non-empty. -/
def pyTruthyOpt : Option String → Bool
  | none => false
  | some s => !(s == "")

/-- Python truthiness of an optional list (`if l:`): present and
non-empty. -/
def pyTruthyList {α : Type} : Option (List α) → Bool
  | none => false
  | some l => !l.isEmpty

/-- `xml.sax.saxutils.escape` for one character. The source escapes `&`,
then `<`, then `>`; since no replacement output contains a later target, the
sequential replaces equal this per-character map. -/
def escapeChar (c : Char) : String :=
  if c = '&' then "&amp;"
  else if c = '<' then "&lt;"
  else if c = '>' then "&gt;"
  else String.mk [c]

/-- `escape(text)`. -/
def pyEscape (s : String) : String :=
  String.join (s.toList.map escapeChar)

/-- `SLIDE_WIDTH` (source line 20). -/
def SLIDE_WIDTH : Nat := 12192000

/-- `SLIDE_HEIGHT` (source line 21). -/
def SLIDE_HEIGHT : Nat := 6858000

/-- `run_xml` (source lines 108–135). All Python keyword defaults are passed
explicitly at every call site of this embedding. -/
def run_xml (text font : String) (size : Nat) (color : String)
    (bold italic preserve : Bool) (hyperlink_rid : Option String) : String :=
  let szAttr := s!"sz=\"{size}\""
  let attrs := ["lang=\"en-US\"", szAttr]
  let attrs := if bold then attrs ++ ["b=\"1\""] else attrs
  let attrs := if italic then attrs ++ ["i=\"1\""] else attrs
  let attrs := if pyTruthyOpt hyperlink_rid then attrs ++ ["u=\"sng\""] else attrs
  let rid := hyperlink_rid.getD ""
  let hyperlink_xml :=
    if pyTruthyOpt hyperlink_rid then
      s!"<a:hlinkClick r:id=\"{rid}\" action=\"ppaction://hlinksldjump\"/>"
    else ""
  let text_attrs := if preserve then " xml:space=\"preserve\"" else ""
  let attrStr := String.intercalate " " attrs
  let escText := pyEscape text
  s!"<a:r><a:rPr {attrStr}><a:solidFill><a:srgbClr val=\"{color}\"/></a:solidFill><a:latin typeface=\"{font}\"/>{hyperlink_xml}</a:rPr><a:t{text_attrs}>{escText}</a:t></a:r>"

/-- `paragraph_props_xml` (source lines 163–179). -/
def paragraph_props_xml (align : Option String)
    (line_spacing_pct space_before_pts space_after_pts : Nat) : String :=
  let alignVal := align.getD ""
  let attrs : List String :=
    if pyTruthyOpt align then [s!"algn=\"{alignVal}\""] else []
  let joined := String.intercalate " " attrs
  let attr_str := if !attrs.isEmpty then s!" {joined}" else ""
  s!"<a:pPr{attr_str}><a:lnSpc><a:spcPct val=\"{line_spacing_pct}\"/></a:lnSpc><a:spcBef><a:spcPts val=\"{space_before_pts}\"/></a:spcBef><a:spcAft><a:spcPts val=\"{space_after_pts}\"/></a:spcAft></a:pPr>"

/-- `paragraph_xml` (source lines 138–160). -/
def paragraph_xml (text font : String) (size : Nat) (color : String)
    (bold italic preserve : Bool) (align : Option String)
    (line_spacing_pct space_before_pts space_after_pts : Nat) : String :=
  let ppr := paragraph_props_xml align line_spacing_pct space_before_pts space_after_pts
  if text == "" then
    s!"<a:p>{ppr}<a:endParaRPr lang=\"en-US\" sz=\"{size}\"/></a:p>"
  else
    let run := run_xml text font size color bold italic preserve none
    s!"<a:p>{ppr}{run}<a:endParaRPr lang=\"en-US\" sz=\"{size}\"/></a:p>"

/-- `paragraph_runs_xml` (source lines 182–214): runs with empty text are
dropped; an empty run list still yields a valid empty paragraph. -/
def paragraph_runs_xml (runs : List RunData) (font : String) (size : Nat)
    (preserve : Bool) (align : Option String)
    (line_spacing_pct space_before_pts space_after_pts : Nat) : String :=
  let ppr := paragraph_props_xml align line_spacing_pct space_before_pts space_after_pts
  let run_xml_parts := (runs.filter (fun r => !(r.text == ""))).map
    (fun r => run_xml r.text font size r.color r.bold r.italic preserve r.hyperlink_rid)
  if run_xml_parts.isEmpty then
    s!"<a:p>{ppr}<a:endParaRPr lang=\"en-US\" sz=\"{size}\"/></a:p>"
  else
    let joined := String.join run_xml_parts
    s!"<a:p>{ppr}{joined}<a:endParaRPr lang=\"en-US\" sz=\"{size}\"/></a:p>"

/-- `shape_xml` (source lines 217–267): a rectangle shape with optional fill,
outline and click hyperlink, holding the given paragraphs. The template
string (with its newlines and indentation, after Python\'s `.strip()`) is
reproduced verbatim. -/
def shape_xml (shape_id : Nat) (name : String) (x y cx cy : Nat)
    (paragraphs : List String) (fill_color line_color : Option String)
    (line_width : Nat) (body_pr_extra : String)
    (click_hyperlink_rid : Option String) : String :=
  let fillVal := fill_color.getD ""
  let fill_xml :=
    if pyTruthyOpt fill_color then
      s!"<a:solidFill><a:srgbClr val=\"{fillVal}\"/></a:solidFill>"
    else "<a:noFill/>"
  let lineVal := line_color.getD ""
  let line_xml :=
    if pyTruthyOpt line_color then
      s!"<a:ln w=\"{line_width}\"><a:solidFill><a:srgbClr val=\"{lineVal}\"/></a:solidFill></a:ln>"
    else "<a:ln><a:noFill/></a:ln>"
  let paras_xml := String.join paragraphs
  let rid := click_hyperlink_rid.getD ""
  let nvpr_xml :=
    if pyTruthyOpt click_hyperlink_rid then
      s!"<p:nvPr><a:hlinkClick r:id=\"{rid}\" action=\"ppaction://hlinksldjump\"/></p:nvPr>"
    else "<p:nvPr/>"
  let escName := pyEscape name
  s!"<p:sp>\n  <p:nvSpPr>\n    <p:cNvPr id=\"{shape_id}\" name=\"{escName}\"/>\n    <p:cNvSpPr/>\n    {nvpr_xml}\n  </p:nvSpPr>\n  <p:spPr>\n    <a:xfrm><a:off x=\"{x}\" y=\"{y}\"/><a:ext cx=\"{cx}\" cy=\"{cy}\"/></a:xfrm>\n    <a:prstGeom prst=\"rect\"><a:avLst/></a:prstGeom>\n    {fill_xml}\n    {line_xml}\n  </p:spPr>\n  <p:txBody>\n    <a:bodyPr wrap=\"square\" lIns=\"91440\" tIns=\"45720\" rIns=\"91440\" bIns=\"45720\" {body_pr_extra}/>\n    <a:lstStyle/>\n    {paras_xml}\n  </p:txBody>\n</p:sp>"

/-- `picture_xml` (source lines 270–288). -/
def picture_xml (shape_id : Nat) (name : String) (x y cx cy : Nat)
    (rel_id : String) : String :=
  let escName := pyEscape name
  s!"<p:pic>\n  <p:nvPicPr>\n    <p:cNvPr id=\"{shape_id}\" name=\"{escName}\"/>\n    <p:cNvPicPr><a:picLocks noChangeAspect=\"1\"/></p:cNvPicPr>\n    <p:nvPr/>\n  </p:nvPicPr>\n  <p:blipFill>\n    <a:blip r:embed=\"{rel_id}\"/>\n    <a:stretch><a:fillRect/></a:stretch>\n  </p:blipFill>\n  <p:spPr>\n    <a:xfrm><a:off x=\"{x}\" y=\"{y}\"/><a:ext cx=\"{cx}\" cy=\"{cy}\"/></a:xfrm>\n    <a:prstGeom prst=\"rect\"><a:avLst/></a:prstGeom>\n    <a:ln w=\"19050\"><a:solidFill><a:srgbClr val=\"C7D2FE\"/></a:solidFill></a:ln>\n  </p:spPr>\n</p:pic>"

/-- `table_cell_xml` (source lines 291–325). -/
def table_cell_xml (text : String) (fill_color text_color : String)
    (bold : Bool) (align : String) (size : Nat) : String :=
  let paragraph := paragraph_xml text "Aptos" size text_color bold false false
    (some align) 108000 0 30
  let border := "<a:solidFill><a:srgbClr val=\"CBD5E1\"/></a:solidFill>"
  s!"<a:tc>\n  <a:txBody>\n    <a:bodyPr wrap=\"square\"/>\n    <a:lstStyle/>\n    {paragraph}\n  </a:txBody>\n  <a:tcPr marL=\"45720\" marR=\"45720\" marT=\"22860\" marB=\"22860\">\n    <a:solidFill><a:srgbClr val=\"{fill_color}\"/></a:solidFill>\n    <a:lnL w=\"9525\">{border}</a:lnL>\n    <a:lnR w=\"9525\">{border}</a:lnR>\n    <a:lnT w=\"9525\">{border}</a:lnT>\n    <a:lnB w=\"9525\">{border}</a:lnB>\n  </a:tcPr>\n</a:tc>"

/-- `table_xml` (source lines 328–388). Raises `ValueError` (modelled as
`Except.error`) when the header list is empty, before any output is built;
otherwise renders the grid, the bold header row and the parity-striped data
rows, each row padded/truncated to the header column count. -/
def table_xml (shape_id x y cx cy : Nat) (table : TableData) : Except String String :=
  let col_count := table.headers.length
  if col_count = 0 then
    Except.error "Table must have at least one header column."
  else
    let columns :=
      if pyTruthyList table.col_widths ∧ (table.col_widths.getD []).length = col_count then
        table.col_widths.getD []
      else
        let per := cx / col_count
        let base := List.replicate col_count per
        base.set (col_count - 1) (per + (cx - per * col_count))
    let grid_cols := String.join (columns.map (fun w => s!"<a:gridCol w=\"{w}\"/>"))
    let row_count := table.rows.length + 1
    let row_height := max 295000 (cy / max 1 row_count)
    let header_cells := table.headers.enum.map (fun p =>
      let align := if p.1 = 0 then "l" else "ctr"
      table_cell_xml p.2 "DBEAFE" "0F172A" true align 1100)
    let headerJoined := String.join header_cells
    let headerRow := s!"<a:tr h=\"{row_height}\">{headerJoined}</a:tr>"
    let dataRows := table.rows.enum.map (fun p =>
      let row_idx := p.1
      let raw_row := p.2
      let row := raw_row.take col_count ++ List.replicate (col_count - raw_row.length) ""
      let data_fill := if row_idx % 2 = 0 then "FFFFFF" else "F8FAFC"
      let row_cells := row.enum.map (fun q =>
        let col_idx := q.1
        let cell_fill := if col_idx = 0 then "F8FAFC" else data_fill
        let cell_color := if col_idx = 0 then "0F172A" else "1E293B"
        table_cell_xml q.2 cell_fill cell_color (col_idx = 0) "l" 1060)
      let cellsJoined := String.join row_cells
      s!"<a:tr h=\"{row_height}\">{cellsJoined}</a:tr>")
    let rowsJoined := String.join (headerRow :: dataRows)
    Except.ok
      s!"<p:graphicFrame>\n  <p:nvGraphicFramePr>\n    <p:cNvPr id=\"{shape_id}\" name=\"Data Table\"/>\n    <p:cNvGraphicFramePr><a:graphicFrameLocks noGrp=\"1\"/></p:cNvGraphicFramePr>\n    <p:nvPr/>\n  </p:nvGraphicFramePr>\n  <p:xfrm><a:off x=\"{x}\" y=\"{y}\"/><a:ext cx=\"{cx}\" cy=\"{cy}\"/></p:xfrm>\n  <a:graphic>\n    <a:graphicData uri=\"http://schemas.openxmlformats.org/drawingml/2006/table\">\n      <a:tbl>\n        <a:tblPr firstRow=\"1\" bandRow=\"1\">\n          <a:tableStyleId>\x7b5C22544A-7EE6-4342-B048-85BDC9FD1C3A\x7d</a:tableStyleId>\n        </a:tblPr>\n        <a:tblGrid>{grid_cols}</a:tblGrid>\n        {rowsJoined}\n      </a:tbl>\n    </a:graphicData>\n  </a:graphic>\n</p:graphicFrame>"

/-- `index_card_shape_xml` (source lines 391–430): a clickable card whose
title and footer line both carry the navigation hyperlink. -/
def index_card_shape_xml (shape_id x y cx cy : Nat) (title subtitle : String)
    (hyperlink_rid : String) : String :=
  let paragraphs := [
    paragraph_runs_xml [RunData.mk title "1D4ED8" true false (some hyperlink_rid)]
      "Aptos" 1500 false none 106000 0 80,
    paragraph_xml subtitle "Aptos" 1175 "334155" false false false none 110000 0 40,
    paragraph_runs_xml
      [RunData.mk "Click to open section" "2563EB" false false (some hyperlink_rid)]
      "Aptos" 1050 false none 104000 0 0]
  shape_xml shape_id s!"Index Card {title}" x y cx cy paragraphs
    (some "F8FAFC") (some "BFDBFE") 19050 "" (some hyperlink_rid)

/-! ## Slide composition (source lines 483–818) -/

/-- `str.splitlines()` for text whose only line terminator is `\n` (the only
kind the slide contents use): split on newlines, with no trailing empty
piece for a terminated final line. -/
def pySplitlines (s : String) : List String :=
  if s == "" then []
  else
    let parts := s.splitOn "\n"
    if parts.getLast? == some "" then parts.dropLast else parts

/-- The index-card loop of `slide_xml` (source lines 642–662): two-column
grid by entry position, a card is emitted only when its (positionally
paired) relationship id is non-empty, and the shape id advances only for
emitted cards. Returns the card shapes and the next shape id. -/
def indexCardsFold (entries : List IndexEntry) (rids : List String)
    (startId : Nat) : List String × Nat :=
  let card_width := 5486400
  let card_height := 1190000
  let left_x := 457200
  let right_x := left_x + card_width + 304800
  let top_y := 2042160
  let y_gap := 198120
  entries.enum.foldl (fun acc p =>
    let idx := p.1
    let entry := p.2
    let col := idx % 2
    let row := idx / 2
    let card_x := if col = 0 then left_x else right_x
    let card_y := top_y + row * (card_height + y_gap)
    let rid := rids.getD idx ""
    if rid == "" then acc
    else
      (acc.1 ++ [index_card_shape_xml acc.2 card_x card_y card_width card_height
        entry.label entry.subtitle rid], acc.2 + 1))
    ([], startId)

/-- The `shapes` list built by `slide_xml` (source lines 483–761): accent
bar, title, body, then image (+ caption) or table or index cards, then code
block, footer and page number, with shape ids assigned sequentially from 2.
`Except` propagates the `table_xml` configuration error. -/
def slideShapes (slide : SlideData) (slide_index slide_count : Nat)
    (index_link_rids : Option (List String)) : Except String (List String) :=
  let accent := shape_xml 2 "Top Accent" 0 0 SLIDE_WIDTH 137160
    [paragraph_xml "" "Aptos" 1000 "000000" false false false none 112000 0 120]
    (some "2563EB") none 12700 "" none
  let titleShape := shape_xml 3 "Title" 457200 190500 11277600 685800
    [paragraph_xml slide.title "Aptos Display" 3400 "0F172A" true false false none 102000 0 180]
    none none 12700 "" none
  let has_table := slide.table.isSome
  let has_index := pyTruthyList slide.index_entries
  let image_only_layout :=
    slide.image_key.isSome && slide.code.isNone && !has_table && !has_index
  let body_height : Nat :=
    if slide.code.isSome then 2300000
    else if has_index then 1066800
    else if has_table then 1371600
    else 5003800
  let body_width : Nat := if image_only_layout then 7073900 else 11277600
  let body_size : Nat :=
    if image_only_layout then 1725
    else if has_index then 1650
    else if has_table then 1700
    else 1825
  let body_paragraphs := slide.bullets.map (fun line =>
    paragraph_xml (format_body_line line) "Aptos" body_size "1E293B"
      false false false none 118000 0 90)
  let bodyShape := shape_xml 4 "Body" 457200 914400 body_width body_height
    body_paragraphs (some "FFFFFF") (some "DBE6FB") 19050 "" none
  let shapes0 := [accent, titleShape, bodyShape]
  let id0 := 5
  let (shapes1, id1) :=
    if image_only_layout then
      let pic := picture_xml id0 "Illustration" 7797800 1300000 3850000 2980000 "rId2"
      if pyTruthyOpt slide.image_caption then
        let cap := shape_xml (id0 + 1) "Image Caption" 7797800 4375000 3850000 500000
          [paragraph_xml (slide.image_caption.getD "") "Aptos" 1225 "475569"
            false false false (some "ctr") 106000 0 30]
          none none 12700 "" none
        (shapes0 ++ [pic, cap], id0 + 2)
      else (shapes0 ++ [pic], id0 + 1)
    else (shapes0, id0)
  match (if has_table then
          match slide.table with
          | some t => (table_xml id1 457200 2194560 11277600 3901440 t).map
              (fun xml => ([xml], id1 + 1))
          | none => Except.ok ([], id1)
         else Except.ok ([], id1)) with
  | Except.error e => Except.error e
  | Except.ok (tableShapes, id2) =>
    let shapes2 := shapes1 ++ tableShapes
    let (shapes3, id3) :=
      if has_index then
        let card_entries := slide.index_entries.getD []
        let rids0 := index_link_rids.getD []
        let rids :=
          if rids0.length < card_entries.length then
            rids0 ++ List.replicate (card_entries.length - rids0.length) ""
          else rids0
        let (cards, idAfter) := indexCardsFold card_entries rids id2
        (shapes2 ++ cards, idAfter)
      else (shapes2, id2)
    let (shapes4, id4) :=
      if slide.code.isSome then
        let titlePart :=
          if pyTruthyOpt slide.code_title then
            [paragraph_xml (slide.code_title.getD "") "Aptos" 1400 "BFDBFE"
              true false false none 104000 0 70,
             paragraph_xml "" "Aptos" 800 "BFDBFE" false false false none 100000 0 30]
          else []
        let codeLines := (pySplitlines (slide.code.getD "")).map (fun line =>
          paragraph_runs_xml (highlight_code_line line) "Cascadia Code" 1200
            true none 102000 0 30)
        let codeShape := shape_xml id3 "Code" 457200 3379000 11277600 2920000
          (titlePart ++ codeLines) (some "0F172A") (some "334155") 19050
          "anchor=\"t\"" none
        (shapes3 ++ [codeShape], id3 + 1)
      else (shapes3, id3)
    let (shapes5, id5) :=
      if pyTruthyOpt slide.footer then
        let f := shape_xml id4 "Footer" 457200 6464300 8600000 304800
          [paragraph_xml (slide.footer.getD "") "Aptos" 1150 "475569"
            false false false none 100000 0 0]
          none none 12700 "" none
        (shapes4 ++ [f], id4 + 1)
      else (shapes4, id4)
    let pageLabel := s!"{slide_index}/{slide_count}"
    let pageNum := shape_xml id5 "Slide Number" 9906000 6464300 1437800 304800
      [paragraph_xml pageLabel "Aptos" 1150 "64748B" false false false
        (some "r") 100000 0 0]
      none none 12700 "" none
    Except.ok (shapes5 ++ [pageNum])

/-- `slide_xml` (source lines 483–785): the slide part around the joined
shape tree. -/
def slide_xml (slide : SlideData) (slide_index slide_count : Nat)
    (index_link_rids : Option (List String)) : Except String String :=
  (slideShapes slide slide_index slide_count index_link_rids).map (fun shapes =>
    let shape_tree := String.intercalate "\n" shapes
    "<?xml version=\"1.0\" encoding=\"UTF-8\" standalone=\"yes\"?>\n<p:sld xmlns:a=\"http://schemas.openxmlformats.org/drawingml/2006/main\" xmlns:r=\"http://schemas.openxmlformats.org/officeDocument/2006/relationships\" xmlns:p=\"http://schemas.openxmlformats.org/presentationml/2006/main\">\n  <p:cSld>\n    <p:spTree>\n      <p:nvGrpSpPr>\n        <p:cNvPr id=\"1\" name=\"\"/>\n        <p:cNvGrpSpPr/>\n        <p:nvPr/>\n      </p:nvGrpSpPr>\n      <p:grpSpPr>\n        <a:xfrm>\n          <a:off x=\"0\" y=\"0\"/>\n          <a:ext cx=\"0\" cy=\"0\"/>\n          <a:chOff x=\"0\" y=\"0\"/>\n          <a:chExt cx=\"0\" cy=\"0\"/>\n        </a:xfrm>\n      </p:grpSpPr>\n      " ++ shape_tree ++ "\n    </p:spTree>\n  </p:cSld>\n  <p:clrMapOvr><a:masterClrMapping/></p:clrMapOvr>\n</p:sld>\n")

/-- The reserved `rId1` slide-layout relationship (source lines 792–794). -/
def slideLayoutRelationship : String :=
  "<Relationship Id=\"rId1\" Type=\"http://schemas.openxmlformats.org/officeDocument/2006/relationships/slideLayout\" Target=\"../slideLayouts/slideLayout1.xml\"/>"

/-- The `rId2` image relationship of a slide relationship part (source lines
797–801). -/
def imageRelationship (image_name : String) : String :=
  s!"<Relationship Id=\"rId2\" Type=\"http://schemas.openxmlformats.org/officeDocument/2006/relationships/image\" Target=\"../media/{image_name}\"/>"

/-- A slide-navigation relationship (source lines 804–810). -/
def slideNavRelationship (rid : String) (target : Nat) : String :=
  s!"<Relationship Id=\"{rid}\" Type=\"http://schemas.openxmlformats.org/officeDocument/2006/relationships/slide\" Target=\"slide{target}.xml\"/>"

/-- The `relationships` list and `link_rids` of `slide_rels_xml` (source
lines 788–818): `rId1` is reserved for the layout, `rId2` is the image
relationship when an image part name is present, and the slide-navigation
relationships take the following sequential ids, one per resolved target, in
order. -/
def slideRelationships (image_name : Option String) (link_targets : List Nat) :
    List String × List String :=
  let relationships := [slideLayoutRelationship]
  let imgName := image_name.getD ""
  let (relationships, next_rid) :=
    if pyTruthyOpt image_name then
      (relationships ++ [imageRelationship imgName], 3)
    else (relationships, 2)
  let step := link_targets.foldl (fun (acc : List String × List String × Nat) target =>
    let rid := s!"rId{acc.2.2}"
    (acc.1 ++ [slideNavRelationship rid target],
     acc.2.1 ++ [rid], acc.2.2 + 1))
    (relationships, [], next_rid)
  (step.1, step.2.1)

/-- `slide_rels_xml` (source lines 788–818): the serialized relationship part
plus the navigation relationship ids handed back to `slide_xml`. -/
def slide_rels_xml (image_name : Option String) (link_targets : List Nat) :
    String × List String :=
  let p := slideRelationships image_name link_targets
  let rel_xml := String.join p.1
  ("<?xml version=\"1.0\" encoding=\"UTF-8\" standalone=\"yes\"?>\n<Relationships xmlns=\"http://schemas.openxmlformats.org/package/2006/relationships\">" ++ rel_xml ++ "</Relationships>\n",
   p.2)

/-! ## Package-level part XML (source lines 821–1135) -/

/-- `root_rels_xml` (static part XML, transcribed from the source template). -/
def root_rels_xml : String :=
  "<?xml version=\"1.0\" encoding=\"UTF-8\" standalone=\"yes\"?>\n<Relationships xmlns=\"http://schemas.openxmlformats.org/package/2006/relationships\">\n  <Relationship Id=\"rId1\" Type=\"http://schemas.openxmlformats.org/officeDocument/2006/relationships/officeDocument\" Target=\"ppt/presentation.xml\"/>\n  <Relationship Id=\"rId2\" Type=\"http://schemas.openxmlformats.org/package/2006/relationships/metadata/core-properties\" Target=\"docProps/core.xml\"/>\n  <Relationship Id=\"rId3\" Type=\"http://schemas.openxmlformats.org/officeDocument/2006/relationships/extended-properties\" Target=\"docProps/app.xml\"/>\n</Relationships>\n"

/-- `slide_master_xml` (static part XML, transcribed from the source template). -/
def slide_master_xml : String :=
  "<?xml version=\"1.0\" encoding=\"UTF-8\" standalone=\"yes\"?>\n<p:sldMaster xmlns:a=\"http://schemas.openxmlformats.org/drawingml/2006/main\" xmlns:r=\"http://schemas.openxmlformats.org/officeDocument/2006/relationships\" xmlns:p=\"http://schemas.openxmlformats.org/presentationml/2006/main\">\n  <p:cSld>\n    <p:bg>\n      <p:bgPr>\n        <a:gradFill rotWithShape=\"1\">\n          <a:gsLst>\n            <a:gs pos=\"0\"><a:srgbClr val=\"F8FBFF\"/></a:gs>\n            <a:gs pos=\"100000\"><a:srgbClr val=\"ECF3FF\"/></a:gs>\n          </a:gsLst>\n          <a:lin ang=\"5400000\" scaled=\"1\"/>\n        </a:gradFill>\n        <a:effectLst/>\n      </p:bgPr>\n    </p:bg>\n    <p:spTree>\n      <p:nvGrpSpPr>\n        <p:cNvPr id=\"1\" name=\"\"/>\n        <p:cNvGrpSpPr/>\n        <p:nvPr/>\n      </p:nvGrpSpPr>\n      <p:grpSpPr>\n        <a:xfrm>\n          <a:off x=\"0\" y=\"0\"/>\n          <a:ext cx=\"0\" cy=\"0\"/>\n          <a:chOff x=\"0\" y=\"0\"/>\n          <a:chExt cx=\"0\" cy=\"0\"/>\n        </a:xfrm>\n      </p:grpSpPr>\n    </p:spTree>\n  </p:cSld>\n  <p:clrMap bg1=\"lt1\" tx1=\"dk1\" bg2=\"lt2\" tx2=\"dk2\" accent1=\"accent1\" accent2=\"accent2\" accent3=\"accent3\" accent4=\"accent4\" accent5=\"accent5\" accent6=\"accent6\" hlink=\"hlink\" folHlink=\"folHlink\"/>\n  <p:sldLayoutIdLst>\n    <p:sldLayoutId id=\"2147483649\" r:id=\"rId1\"/>\n  </p:sldLayoutIdLst>\n  <p:txStyles>\n    <p:titleStyle>\n      <a:lvl1pPr algn=\"l\"><a:defRPr sz=\"3400\" b=\"1\"/></a:lvl1pPr>\n    </p:titleStyle>\n    <p:bodyStyle>\n      <a:lvl1pPr marL=\"0\" indent=\"0\"><a:defRPr sz=\"1800\"/></a:lvl1pPr>\n      <a:lvl2pPr marL=\"457200\" indent=\"0\"><a:defRPr sz=\"1650\"/></a:lvl2pPr>\n    </p:bodyStyle>\n    <p:otherStyle>\n      <a:lvl1pPr marL=\"0\" indent=\"0\"><a:defRPr sz=\"1500\"/></a:lvl1pPr>\n    </p:otherStyle>\n  </p:txStyles>\n</p:sldMaster>\n"

/-- `slide_layout_xml` (static part XML, transcribed from the source template). -/
def slide_layout_xml : String :=
  "<?xml version=\"1.0\" encoding=\"UTF-8\" standalone=\"yes\"?>\n<p:sldLayout xmlns:a=\"http://schemas.openxmlformats.org/drawingml/2006/main\" xmlns:r=\"http://schemas.openxmlformats.org/officeDocument/2006/relationships\" xmlns:p=\"http://schemas.openxmlformats.org/presentationml/2006/main\" type=\"blank\" preserve=\"1\">\n  <p:cSld name=\"Blank\">\n    <p:spTree>\n      <p:nvGrpSpPr>\n        <p:cNvPr id=\"1\" name=\"\"/>\n        <p:cNvGrpSpPr/>\n        <p:nvPr/>\n      </p:nvGrpSpPr>\n      <p:grpSpPr>\n        <a:xfrm>\n          <a:off x=\"0\" y=\"0\"/>\n          <a:ext cx=\"0\" cy=\"0\"/>\n          <a:chOff x=\"0\" y=\"0\"/>\n          <a:chExt cx=\"0\" cy=\"0\"/>\n        </a:xfrm>\n      </p:grpSpPr>\n    </p:spTree>\n  </p:cSld>\n  <p:clrMapOvr><a:masterClrMapping/></p:clrMapOvr>\n</p:sldLayout>\n"

/-- `slide_master_rels_xml` (static part XML, transcribed from the source template). -/
def slide_master_rels_xml : String :=
  "<?xml version=\"1.0\" encoding=\"UTF-8\" standalone=\"yes\"?>\n<Relationships xmlns=\"http://schemas.openxmlformats.org/package/2006/relationships\">\n  <Relationship Id=\"rId1\" Type=\"http://schemas.openxmlformats.org/officeDocument/2006/relationships/slideLayout\" Target=\"../slideLayouts/slideLayout1.xml\"/>\n  <Relationship Id=\"rId2\" Type=\"http://schemas.openxmlformats.org/officeDocument/2006/relationships/theme\" Target=\"../theme/theme1.xml\"/>\n</Relationships>\n"

/-- `slide_layout_rels_xml` (static part XML, transcribed from the source template). -/
def slide_layout_rels_xml : String :=
  "<?xml version=\"1.0\" encoding=\"UTF-8\" standalone=\"yes\"?>\n<Relationships xmlns=\"http://schemas.openxmlformats.org/package/2006/relationships\">\n  <Relationship Id=\"rId1\" Type=\"http://schemas.openxmlformats.org/officeDocument/2006/relationships/slideMaster\" Target=\"../slideMasters/slideMaster1.xml\"/>\n</Relationships>\n"

/-- `theme_xml` (static part XML, transcribed from the source template). -/
def theme_xml : String :=
  "<?xml version=\"1.0\" encoding=\"UTF-8\" standalone=\"yes\"?>\n<a:theme xmlns:a=\"http://schemas.openxmlformats.org/drawingml/2006/main\" name=\"Case Study Theme\">\n  <a:themeElements>\n    <a:clrScheme name=\"Case Study\">\n      <a:dk1><a:srgbClr val=\"0F172A\"/></a:dk1>\n      <a:lt1><a:srgbClr val=\"FFFFFF\"/></a:lt1>\n      <a:dk2><a:srgbClr val=\"1E293B\"/></a:dk2>\n      <a:lt2><a:srgbClr val=\"E2E8F0\"/></a:lt2>\n      <a:accent1><a:srgbClr val=\"2563EB\"/></a:accent1>\n      <a:accent2><a:srgbClr val=\"0F766E\"/></a:accent2>\n      <a:accent3><a:srgbClr val=\"D97706\"/></a:accent3>\n      <a:accent4><a:srgbClr val=\"0EA5E9\"/></a:accent4>\n      <a:accent5><a:srgbClr val=\"DC2626\"/></a:accent5>\n      <a:accent6><a:srgbClr val=\"7C3AED\"/></a:accent6>\n      <a:hlink><a:srgbClr val=\"2563EB\"/></a:hlink>\n      <a:folHlink><a:srgbClr val=\"7C3AED\"/></a:folHlink>\n    </a:clrScheme>\n    <a:fontScheme name=\"Case Study\">\n      <a:majorFont><a:latin typeface=\"Aptos Display\"/><a:ea typeface=\"\"/><a:cs typeface=\"\"/></a:majorFont>\n      <a:minorFont><a:latin typeface=\"Aptos\"/><a:ea typeface=\"\"/><a:cs typeface=\"\"/></a:minorFont>\n    </a:fontScheme>\n    <a:fmtScheme name=\"Case Study\">\n      <a:fillStyleLst>\n        <a:solidFill><a:schemeClr val=\"phClr\"/></a:solidFill>\n        <a:gradFill rotWithShape=\"1\">\n          <a:gsLst>\n            <a:gs pos=\"0\"><a:schemeClr val=\"phClr\"><a:satMod val=\"103000\"/><a:lumMod val=\"102000\"/></a:schemeClr></a:gs>\n            <a:gs pos=\"100000\"><a:schemeClr val=\"phClr\"><a:satMod val=\"99000\"/><a:lumMod val=\"98000\"/></a:schemeClr></a:gs>\n          </a:gsLst>\n          <a:lin ang=\"5400000\" scaled=\"0\"/>\n        </a:gradFill>\n        <a:gradFill rotWithShape=\"1\">\n          <a:gsLst>\n            <a:gs pos=\"0\"><a:schemeClr val=\"phClr\"><a:lumMod val=\"110000\"/><a:satMod val=\"105000\"/></a:schemeClr></a:gs>\n            <a:gs pos=\"100000\"><a:schemeClr val=\"phClr\"><a:lumMod val=\"100000\"/><a:satMod val=\"100000\"/></a:schemeClr></a:gs>\n          </a:gsLst>\n          <a:lin ang=\"5400000\" scaled=\"0\"/>\n        </a:gradFill>\n      </a:fillStyleLst>\n      <a:lnStyleLst>\n        <a:ln w=\"9525\" cap=\"flat\" cmpd=\"sng\" algn=\"ctr\"><a:solidFill><a:schemeClr val=\"phClr\"/></a:solidFill><a:prstDash val=\"solid\"/><a:miter lim=\"800000\"/></a:ln>\n        <a:ln w=\"25400\" cap=\"flat\" cmpd=\"sng\" algn=\"ctr\"><a:solidFill><a:schemeClr val=\"phClr\"/></a:solidFill><a:prstDash val=\"solid\"/><a:miter lim=\"800000\"/></a:ln>\n        <a:ln w=\"38100\" cap=\"flat\" cmpd=\"sng\" algn=\"ctr\"><a:solidFill><a:schemeClr val=\"phClr\"/></a:solidFill><a:prstDash val=\"solid\"/><a:miter lim=\"800000\"/></a:ln>\n      </a:lnStyleLst>\n      <a:effectStyleLst>\n        <a:effectStyle><a:effectLst/></a:effectStyle>\n        <a:effectStyle><a:effectLst/></a:effectStyle>\n        <a:effectStyle><a:effectLst/></a:effectStyle>\n      </a:effectStyleLst>\n      <a:bgFillStyleLst>\n        <a:solidFill><a:schemeClr val=\"phClr\"/></a:solidFill>\n        <a:solidFill><a:schemeClr val=\"phClr\"><a:tint val=\"95000\"/><a:satMod val=\"170000\"/></a:schemeClr></a:solidFill>\n        <a:gradFill rotWithShape=\"1\">\n          <a:gsLst>\n            <a:gs pos=\"0\"><a:schemeClr val=\"phClr\"><a:tint val=\"93000\"/><a:satMod val=\"150000\"/></a:schemeClr></a:gs>\n            <a:gs pos=\"100000\"><a:schemeClr val=\"phClr\"><a:tint val=\"98000\"/><a:satMod val=\"130000\"/></a:schemeClr></a:gs>\n          </a:gsLst>\n          <a:lin ang=\"5400000\" scaled=\"0\"/>\n        </a:gradFill>\n      </a:bgFillStyleLst>\n    </a:fmtScheme>\n  </a:themeElements>\n  <a:objectDefaults/>\n  <a:extraClrSchemeLst/>\n</a:theme>\n"

/-- `pres_props_xml` (static part XML, transcribed from the source template). -/
def pres_props_xml : String :=
  "<?xml version=\"1.0\" encoding=\"UTF-8\" standalone=\"yes\"?>\n<p:presentationPr xmlns:a=\"http://schemas.openxmlformats.org/drawingml/2006/main\" xmlns:r=\"http://schemas.openxmlformats.org/officeDocument/2006/relationships\" xmlns:p=\"http://schemas.openxmlformats.org/presentationml/2006/main\"/>\n"

/-- `view_props_xml` (static part XML, transcribed from the source template). -/
def view_props_xml : String :=
  "<?xml version=\"1.0\" encoding=\"UTF-8\" standalone=\"yes\"?>\n<p:viewPr xmlns:a=\"http://schemas.openxmlformats.org/drawingml/2006/main\" xmlns:r=\"http://schemas.openxmlformats.org/officeDocument/2006/relationships\" xmlns:p=\"http://schemas.openxmlformats.org/presentationml/2006/main\">\n  <p:normalViewPr><p:restoredLeft sz=\"15620\"/><p:restoredTop sz=\"94660\"/></p:normalViewPr>\n  <p:slideViewPr/>\n  <p:notesTextViewPr/>\n  <p:gridSpacing cx=\"72008\" cy=\"72008\"/>\n</p:viewPr>\n"

/-- `table_styles_xml` (static part XML, transcribed from the source template). -/
def table_styles_xml : String :=
  "<?xml version=\"1.0\" encoding=\"UTF-8\" standalone=\"yes\"?>\n<a:tblStyleLst xmlns:a=\"http://schemas.openxmlformats.org/drawingml/2006/main\" def=\"\x7b5C22544A-7EE6-4342-B048-85BDC9FD1C3A\x7d\"/>\n"

/-- `docprops_core_xml` (source lines 939–949): document metadata carrying
the creation/modification timestamp. -/
def docprops_core_xml (now_iso : String) : String :=
  "<?xml version=\"1.0\" encoding=\"UTF-8\" standalone=\"yes\"?>\n<cp:coreProperties xmlns:cp=\"http://schemas.openxmlformats.org/package/2006/metadata/core-properties\" xmlns:dc=\"http://purl.org/dc/elements/1.1/\" xmlns:dcterms=\"http://purl.org/dc/terms/\" xmlns:dcmitype=\"http://purl.org/dc/dcmitype/\" xmlns:xsi=\"http://www.w3.org/2001/XMLSchema-instance\">\n  <dc:title>AAOS Persistent Contacts Cache Case Study</dc:title>\n  <dc:subject>Approach comparison and recommended architecture</dc:subject>\n  <dc:creator>Codex</dc:creator>\n  <cp:lastModifiedBy>Codex</cp:lastModifiedBy>\n  <dcterms:created xsi:type=\"dcterms:W3CDTF\">" ++ now_iso ++ "</dcterms:created>\n  <dcterms:modified xsi:type=\"dcterms:W3CDTF\">" ++ now_iso ++ "</dcterms:modified>\n</cp:coreProperties>\n"

/-- `docprops_app_xml` (source lines 909–936). -/
def docprops_app_xml (slide_count : Nat) : String :=
  let n := toString slide_count
  "<?xml version=\"1.0\" encoding=\"UTF-8\" standalone=\"yes\"?>\n<Properties xmlns=\"http://schemas.openxmlformats.org/officeDocument/2006/extended-properties\" xmlns:vt=\"http://schemas.openxmlformats.org/officeDocument/2006/docPropsVTypes\">\n  <Application>Microsoft Office PowerPoint</Application>\n  <PresentationFormat>On-screen Show (16:9)</PresentationFormat>\n  <Slides>" ++ n ++ "</Slides>\n  <Notes>0</Notes>\n  <HiddenSlides>0</HiddenSlides>\n  <MMClips>0</MMClips>\n  <ScaleCrop>false</ScaleCrop>\n  <HeadingPairs>\n    <vt:vector size=\"2\" baseType=\"variant\">\n      <vt:variant><vt:lpstr>Theme</vt:lpstr></vt:variant>\n      <vt:variant><vt:i4>1</vt:i4></vt:variant>\n    </vt:vector>\n  </HeadingPairs>\n  <TitlesOfParts>\n    <vt:vector size=\"1\" baseType=\"lpstr\">\n      <vt:lpstr>Case Study Theme</vt:lpstr>\n    </vt:vector>\n  </TitlesOfParts>\n  <Company></Company>\n  <LinksUpToDate>false</LinksUpToDate>\n  <SharedDoc>false</SharedDoc>\n  <HyperlinksChanged>false</HyperlinksChanged>\n  <AppVersion>16.0000</AppVersion>\n</Properties>\n"

/-- `presentation_xml` (source lines 821–845): one `sldId` per slide, ids
from 256 and relationship ids from `rId2`. -/
def presentation_xml (slide_count : Nat) : String :=
  let slide_id_lst := String.join ((List.range slide_count).map (fun idx =>
    let sid := 256 + idx
    let rid := idx + 2
    s!"<p:sldId id=\"{sid}\" r:id=\"rId{rid}\"/>"))
  "<?xml version=\"1.0\" encoding=\"UTF-8\" standalone=\"yes\"?>\n<p:presentation xmlns:a=\"http://schemas.openxmlformats.org/drawingml/2006/main\" xmlns:r=\"http://schemas.openxmlformats.org/officeDocument/2006/relationships\" xmlns:p=\"http://schemas.openxmlformats.org/presentationml/2006/main\" saveSubsetFonts=\"1\" autoCompressPictures=\"0\">\n  <p:sldMasterIdLst>\n    <p:sldMasterId id=\"2147483648\" r:id=\"rId1\"/>\n  </p:sldMasterIdLst>\n  " ++ "<p:sldIdLst>" ++ slide_id_lst ++ "</p:sldIdLst>" ++ "\n  <p:sldSz cx=\"12192000\" cy=\"6858000\" type=\"screen16x9\"/>\n  <p:notesSz cx=\"6858000\" cy=\"9144000\"/>\n  <p:defaultTextStyle>\n    <a:defPPr/>\n    <a:lvl1pPr marL=\"0\" indent=\"0\"><a:defRPr sz=\"1800\"/></a:lvl1pPr>\n    <a:lvl2pPr marL=\"457200\" indent=\"0\"><a:defRPr sz=\"1600\"/></a:lvl2pPr>\n    <a:lvl3pPr marL=\"914400\" indent=\"0\"><a:defRPr sz=\"1400\"/></a:lvl3pPr>\n  </p:defaultTextStyle>\n</p:presentation>\n"

/-- `presentation_rels_xml` (source lines 848–871): master `rId1`, one slide
relationship per slide from `rId2`, then presProps/viewProps/tableStyles at
the next three ids. -/
def presentation_rels_xml (slide_count : Nat) : String :=
  let rels := ["<Relationship Id=\"rId1\" Type=\"http://schemas.openxmlformats.org/officeDocument/2006/relationships/slideMaster\" Target=\"slideMasters/slideMaster1.xml\"/>"]
  let rels := rels ++ (List.range slide_count).map (fun idx =>
    let rid := idx + 2
    let sn := idx + 1
    s!"<Relationship Id=\"rId{rid}\" Type=\"http://schemas.openxmlformats.org/officeDocument/2006/relationships/slide\" Target=\"slides/slide{sn}.xml\"/>")
  let r1 := slide_count + 2
  let r2 := slide_count + 3
  let r3 := slide_count + 4
  let rels := rels ++ [
    s!"<Relationship Id=\"rId{r1}\" Type=\"http://schemas.openxmlformats.org/officeDocument/2006/relationships/presProps\" Target=\"presProps.xml\"/>",
    s!"<Relationship Id=\"rId{r2}\" Type=\"http://schemas.openxmlformats.org/officeDocument/2006/relationships/viewProps\" Target=\"viewProps.xml\"/>",
    s!"<Relationship Id=\"rId{r3}\" Type=\"http://schemas.openxmlformats.org/officeDocument/2006/relationships/tableStyles\" Target=\"tableStyles.xml\"/>"]
  let rel_xml := String.join rels
  "<?xml version=\"1.0\" encoding=\"UTF-8\" standalone=\"yes\"?>\n<Relationships xmlns=\"http://schemas.openxmlformats.org/package/2006/relationships\">" ++ rel_xml ++ "</Relationships>\n"

/-- `content_types_xml` (source lines 874–896): extension defaults plus one
explicit override per part, including one per slide. -/
def content_types_xml (slide_count : Nat) : String :=
  let slide_overrides := String.join ((List.range slide_count).map (fun idx =>
    let i := idx + 1
    s!"<Override PartName=\"/ppt/slides/slide{i}.xml\" ContentType=\"application/vnd.openxmlformats-officedocument.presentationml.slide+xml\"/>"))
  "<?xml version=\"1.0\" encoding=\"UTF-8\" standalone=\"yes\"?>\n<Types xmlns=\"http://schemas.openxmlformats.org/package/2006/content-types\">\n  <Default Extension=\"rels\" ContentType=\"application/vnd.openxmlformats-package.relationships+xml\"/>\n  <Default Extension=\"xml\" ContentType=\"application/xml\"/>\n  <Default Extension=\"png\" ContentType=\"image/png\"/>\n  <Override PartName=\"/ppt/presentation.xml\" ContentType=\"application/vnd.openxmlformats-officedocument.presentationml.presentation.main+xml\"/>\n  <Override PartName=\"/ppt/slideMasters/slideMaster1.xml\" ContentType=\"application/vnd.openxmlformats-officedocument.presentationml.slideMaster+xml\"/>\n  <Override PartName=\"/ppt/slideLayouts/slideLayout1.xml\" ContentType=\"application/vnd.openxmlformats-officedocument.presentationml.slideLayout+xml\"/>\n  <Override PartName=\"/ppt/theme/theme1.xml\" ContentType=\"application/vnd.openxmlformats-officedocument.theme+xml\"/>\n  <Override PartName=\"/ppt/presProps.xml\" ContentType=\"application/vnd.openxmlformats-officedocument.presentationml.presProps+xml\"/>\n  <Override PartName=\"/ppt/viewProps.xml\" ContentType=\"application/vnd.openxmlformats-officedocument.presentationml.viewProps+xml\"/>\n  <Override PartName=\"/ppt/tableStyles.xml\" ContentType=\"application/vnd.openxmlformats-officedocument.presentationml.tableStyles+xml\"/>\n  <Override PartName=\"/docProps/core.xml\" ContentType=\"application/vnd.openxmlformats-package.core-properties+xml\"/>\n  <Override PartName=\"/docProps/app.xml\" ContentType=\"application/vnd.openxmlformats-officedocument.extended-properties+xml\"/>\n  " ++ slide_overrides ++ "\n</Types>\n"

/-! ## Image assets (source lines 1271–1362)

The `draw_arrow` wing endpoints below are the concrete integer values of the
source\'s floating-point computation at each call site (constant inputs, so
the floats evaluate to fixed integers). -/

/-- `make_cover_overview_image` (source lines 1271–1292). -/
def make_cover_overview_image (compress : List Nat → List Nat) : List Nat :=
  let c := canvasInit 640 360 "EFF6FF"
  let c := fill_vertical_gradient c "F7FAFF" "E6EEFF"
  let c := fill_rounded_rect c 44 68 220 148 16 "FFFFFF"
  let c := draw_rect c 44 68 220 148 "BFDBFE" 4
  let c := fill_rounded_rect c 72 96 160 70 10 "DBEAFE"
  let c := draw_rect c 72 96 160 70 "93C5FD" 3
  let c := fill_circle c 102 192 8 "2563EB"
  let c := fill_circle c 132 192 8 "0EA5E9"
  let c := fill_circle c 162 192 8 "38BDF8"
  let c := fill_rounded_rect c 372 90 210 46 14 "BFDBFE"
  let c := fill_rounded_rect c 362 148 228 46 14 "93C5FD"
  let c := fill_rounded_rect c 372 206 210 46 14 "60A5FA"
  let c := draw_rect c 362 148 228 46 "2563EB" 3
  let c := draw_arrow c 270 140 352 128 339 137 336 122 "2563EB"
  let c := draw_arrow c 270 186 352 220 336 222 342 207 "0EA5E9"
  let c := fill_rounded_rect c 250 250 140 62 14 "FFFFFF"
  let c := draw_rect c 250 250 140 62 "93C5FD" 3
  let c := fill_circle c 284 281 10 "0F766E"
  let c := fill_circle c 318 281 10 "0F766E"
  let c := fill_circle c 352 281 10 "0F766E"
  to_png_bytes compress c.width c.height c.rows

/-- `make_problem_context_image` (source lines 1295–1312). -/
def make_problem_context_image (compress : List Nat → List Nat) : List Nat :=
  let c := canvasInit 640 360 "FFF7ED"
  let c := fill_vertical_gradient c "FFF7ED" "FFEDD5"
  let c := fill_rounded_rect c 62 76 516 210 20 "FFFFFF"
  let c := draw_rect c 62 76 516 210 "FDBA74" 4
  let c := fill_circle c 138 150 34 "F59E0B"
  let c := fill_rect c 132 132 12 28 "FFFFFF"
  let c := fill_rect c 132 168 12 12 "FFFFFF"
  let c := fill_circle c 318 150 34 "F97316"
  let c := fill_rect c 312 132 12 28 "FFFFFF"
  let c := fill_rect c 312 168 12 12 "FFFFFF"
  let c := fill_circle c 498 150 34 "EF4444"
  let c := fill_rect c 492 132 12 28 "FFFFFF"
  let c := fill_rect c 492 168 12 12 "FFFFFF"
  let c := draw_arrow c 180 228 458 228 444 236 444 220 "FB923C"
  let c := fill_rounded_rect c 248 248 146 30 8 "FED7AA"
  let c := draw_rect c 248 248 146 30 "F59E0B" 2
  to_png_bytes compress c.width c.height c.rows

/-- `make_approach_fit_image` (source lines 1315–1334). -/
def make_approach_fit_image (compress : List Nat → List Nat) : List Nat :=
  let c := canvasInit 640 360 "ECFEFF"
  let c := fill_vertical_gradient c "F0FDFF" "E0F2FE"
  let c := fill_rounded_rect c 68 134 150 90 18 "FFFFFF"
  let c := draw_rect c 68 134 150 90 "7DD3FC" 4
  let c := fill_rounded_rect c 246 96 150 90 18 "FFFFFF"
  let c := draw_rect c 246 96 150 90 "7DD3FC" 4
  let c := fill_rounded_rect c 246 214 150 90 18 "FFFFFF"
  let c := draw_rect c 246 214 150 90 "7DD3FC" 4
  let c := fill_rounded_rect c 424 134 150 90 18 "E0F2FE"
  let c := draw_rect c 424 134 150 90 "38BDF8" 4
  let c := draw_arrow c 218 178 238 142 238 158 224 150 "0EA5E9"
  let c := draw_arrow c 218 178 238 258 226 246 242 242 "0EA5E9"
  let c := draw_arrow c 396 142 416 178 402 169 416 161 "0284C7"
  let c := draw_arrow c 396 258 416 178 420 193 404 189 "0284C7"
  let c := fill_circle c 499 178 18 "0F766E"
  let c := fill_circle c 538 178 18 "0F766E"
  to_png_bytes compress c.width c.height c.rows

/-- One milestone group of `make_rollout_timeline_image` (source lines
1342–1346). -/
def rolloutMilestone (c : RasterCanvas) (x : Int) (color : String)
    (lx ly rx ry : Int) : RasterCanvas :=
  let c := fill_circle c x 190 24 color
  let c := draw_rect c (x - 52) 104 104 34 "A5B4FC" 3
  let c := fill_rounded_rect c (x - 48) 108 96 26 8 "FFFFFF"
  draw_arrow c x 166 x 142 lx ly rx ry "4F46E5"

/-- `make_rollout_timeline_image` (source lines 1337–1353). -/
def make_rollout_timeline_image (compress : List Nat → List Nat) : List Nat :=
  let c := canvasInit 640 360 "F8FAFC"
  let c := fill_vertical_gradient c "F8FAFC" "EEF2FF"
  let c := draw_line c 80 190 560 190 "6366F1" 6
  let c := rolloutMilestone c 120 "93C5FD" 128 156 112 156
  let c := rolloutMilestone c 280 "60A5FA" 288 156 272 156
  let c := rolloutMilestone c 440 "2563EB" 448 156 432 156
  let c := fill_rounded_rect c 96 228 128 62 12 "DBEAFE"
  let c := fill_rounded_rect c 256 228 128 62 12 "BFDBFE"
  let c := fill_rounded_rect c 416 228 128 62 12 "93C5FD"
  let c := draw_rect c 96 228 128 62 "60A5FA" 2
  let c := draw_rect c 256 228 128 62 "3B82F6" 2
  let c := draw_rect c 416 228 128 62 "2563EB" 2
  to_png_bytes compress c.width c.height c.rows

/-- `build_image_assets` (source lines 1356–1362): the content plan\'s fixed
named images, in the dict\'s insertion order. -/
def build_image_assets (compress : List Nat → List Nat) : List (String × List Nat) :=
  [("cover_overview", make_cover_overview_image compress),
   ("problem_context", make_problem_context_image compress),
   ("approach_fit", make_approach_fit_image compress),
   ("rollout_timeline", make_rollout_timeline_image compress)]

/-! ## `generate_pptx` (source lines 2856–2898) -/

/-- CPython dict assignment on an insertion-ordered association list: a
repeated key overwrites its binding in place, a new key is appended. -/
def dictInsert {α : Type} (m : List (String × α)) (k : String) (v : α) :
    List (String × α) :=
  if m.any (fun p => p.1 == k) then
    m.map (fun p => if p.1 == k then (k, v) else p)
  else m ++ [(k, v)]

/-- `dict.get(k)`. -/
def pyDictGet {α : Type} (m : List (String × α)) (k : String) : Option α :=
  (m.find? (fun p => p.1 == k)).map (fun p => p.2)

/-- `title_to_index` (source line 2860): a dict comprehension over
`enumerate(slides, start=1)`; a duplicated title keeps the binding of the
LAST slide bearing it (dict semantics). -/
def title_to_index (slides : List SlideData) : List (String × Nat) :=
  (slides.enum.map (fun p => (p.2.title, p.1 + 1))).foldl
    (fun m p => dictInsert m p.1 p.2) []

/-- The `link_targets` loop of `generate_pptx` (source lines 2889–2894):
resolvable index-entry titles, in entry order; unresolvable titles
contribute nothing. -/
def computeLinkTargets (t2i : List (String × Nat)) (slide : SlideData) : List Nat :=
  match slide.index_entries with
  | none => []
  | some entries => entries.filterMap (fun e => pyDictGet t2i e.target_title)

/-- Insertion into a `sorted` list (Python `sorted` on strings is
lexicographic by code point, which is `String` order here). -/
def insertSortedStr (x : String) : List String → List String
  | [] => [x]
  | y :: ys => if x ≤ y then x :: y :: ys else y :: insertSortedStr x ys

/-- `sorted(keys)`. -/
def pySortedStr (l : List String) : List String := l.foldr insertSortedStr []

/-- `image_names` (source line 2858): `image{idx}.png` over the sorted asset
keys, 1-based. -/
def imageNames (assetKeys : List String) : List (String × String) :=
  (pySortedStr assetKeys).enum.map (fun p =>
    let n := p.1 + 1
    (p.2, s!"image{n}.png"))

/-- A part written into the archive: XML text or raw image bytes. -/
inductive PartContent where
  | text : String → PartContent
  | bytes : List Nat → PartContent
deriving Repr, DecidableEq

/-- The archive entry list written by `generate_pptx` (source lines
2856–2898), in `writestr` order: manifest, root rels, doc properties (with
the single captured timestamp `now_iso`), presentation and its rels, props,
theme, master, layout, media images, then one slide part + slide rels part
per slide. The zip container itself and the per-entry zip header timestamps
(wall-clock values excluded by the determinism claim) are outside the model;
`image_assets` is the output of `build_image_assets`. -/
def generatePptxEntries (image_assets : List (String × List Nat))
    (now_iso : String) (slides : List SlideData) :
    Except String (List (String × PartContent)) :=
  let image_names := imageNames (image_assets.map (fun p => p.1))
  let t2i := title_to_index slides
  let head : List (String × PartContent) :=
    [("[Content_Types].xml", PartContent.text (content_types_xml slides.length)),
     ("_rels/.rels", PartContent.text root_rels_xml),
     ("docProps/app.xml", PartContent.text (docprops_app_xml slides.length)),
     ("docProps/core.xml", PartContent.text (docprops_core_xml now_iso)),
     ("ppt/presentation.xml", PartContent.text (presentation_xml slides.length)),
     ("ppt/_rels/presentation.xml.rels", PartContent.text (presentation_rels_xml slides.length)),
     ("ppt/presProps.xml", PartContent.text pres_props_xml),
     ("ppt/viewProps.xml", PartContent.text view_props_xml),
     ("ppt/tableStyles.xml", PartContent.text table_styles_xml),
     ("ppt/theme/theme1.xml", PartContent.text theme_xml),
     ("ppt/slideMasters/slideMaster1.xml", PartContent.text slide_master_xml),
     ("ppt/slideMasters/_rels/slideMaster1.xml.rels", PartContent.text slide_master_rels_xml),
     ("ppt/slideLayouts/slideLayout1.xml", PartContent.text slide_layout_xml),
     ("ppt/slideLayouts/_rels/slideLayout1.xml.rels", PartContent.text slide_layout_rels_xml)]
  let media : List (String × PartContent) := image_assets.map (fun p =>
    let nm := (pyDictGet image_names p.1).getD ""
    (s!"ppt/media/{nm}", PartContent.bytes p.2))
  let slideParts : List SlideData → Nat → Except String (List (String × PartContent)) :=
    fun ss _ => ss.enum.foldlM (fun acc p =>
      let idx := p.1 + 1
      let slide := p.2
      let image_name :=
        match slide.image_key with
        | some key => pyDictGet image_names key
        | none => none
      let link_targets := computeLinkTargets t2i slide
      let rels := slide_rels_xml image_name link_targets
      match slide_xml slide idx slides.length (some rels.2) with
      | Except.error e => Except.error e
      | Except.ok sx =>
        Except.ok (acc ++
          [(s!"ppt/slides/slide{idx}.xml", PartContent.text sx),
           (s!"ppt/slides/_rels/slide{idx}.xml.rels", PartContent.text rels.1)]))
      []
  match slideParts slides 0 with
  | Except.error e => Except.error e
  | Except.ok sp => Except.ok (head ++ media ++ sp)

/-! ## Claims C8, C2, C3 -/

/-- C8: rendering a table with an empty header list fails fast with the
invalid-configuration error, before any table content is emitted; a table
with at least one header column never raises it. -/
theorem C8_empty_table_fails_fast (shape_id x y cx cy : Nat) (t : TableData) :
    (t.headers = [] →
      table_xml shape_id x y cx cy t
        = Except.error "Table must have at least one header column.") ∧
    (t.headers ≠ [] → ∃ xml, table_xml shape_id x y cx cy t = Except.ok xml) := by
  constructor
  · intro h
    unfold table_xml
    rw [if_pos (by simp [h])]
  · intro h
    unfold table_xml
    rw [if_neg (by simpa using h)]
    exact ⟨_, rfl⟩

/-- Witness for C8: a headerless descriptor errors, a one-column descriptor
renders. -/
theorem C8_empty_table_fails_fast_witness :
    table_xml 5 457200 2194560 11277600 3901440 (TableData.mk [] [] none)
      = Except.error "Table must have at least one header column." ∧
    ∃ xml, table_xml 5 457200 2194560 11277600 3901440
      (TableData.mk ["Area"] [["x"]] none) = Except.ok xml :=
  ⟨(C8_empty_table_fails_fast 5 457200 2194560 11277600 3901440
      (TableData.mk [] [] none)).1 rfl,
   (C8_empty_table_fails_fast 5 457200 2194560 11277600 3901440
      (TableData.mk ["Area"] [["x"]] none)).2 (by decide)⟩

/-- The 1-based position of the FIRST slide bearing a title (the rule the
spec states for duplicate titles). -/
def firstTitleIndex (slides : List SlideData) (t : String) : Option Nat :=
  (slides.enum.find? (fun p => p.2.title == t)).map (fun p => p.1 + 1)

/-- The 1-based position of the LAST slide bearing a title (what the dict
comprehension actually computes for duplicate titles). -/
def lastTitleIndex (slides : List SlideData) (t : String) : Option Nat :=
  ((slides.enum.filter (fun p => p.2.title == t)).getLast?).map (fun p => p.1 + 1)

/-- C2 counterexample: with two slides both titled `"A"`, the title lookup
resolves to position 2 (the last match), not position 1 (the first match the
claim asserts). -/
theorem C2_counterexample :
    pyDictGet (title_to_index
      [SlideData.mk "A" [] none none none none none none none,
       SlideData.mk "A" [] none none none none none none none]) "A" = some 2 ∧
    firstTitleIndex
      [SlideData.mk "A" [] none none none none none none none,
       SlideData.mk "A" [] none none none none none none none] "A" = some 1 ∧
    some (2 : Nat) ≠ some 1 := by
  refine ⟨by decide, by decide, by decide⟩

/-- `find?` over an in-place overwrite of key `k`: hits `(k, v)` iff the key
was present. -/
theorem find?_map_overwrite (k : String) (v : Nat) :
    ∀ m : List (String × Nat),
    List.find? (fun p => p.1 == k) (m.map (fun p => if p.1 == k then (k, v) else p))
      = if m.any (fun p => p.1 == k) then some (k, v) else none := by
  intro m
  induction m with
  | nil => simp
  | cons p m ih =>
    by_cases hp : (p.1 == k) = true
    · simp [List.find?, hp]
    · simp only [List.map_cons, List.any_cons, hp, Bool.false_or]
      rw [if_neg (by simp [hp])]
      rw [List.find?_cons_of_neg _ (by simpa using hp)]
      exact ih

/-- `find?` for a key other than the overwritten one is unchanged. -/
theorem find?_map_overwrite_other (k k' : String) (v : Nat) (h : k ≠ k') :
    ∀ m : List (String × Nat),
    List.find? (fun p => p.1 == k') (m.map (fun p => if p.1 == k then (k, v) else p))
      = List.find? (fun p => p.1 == k') m := by
  intro m
  induction m with
  | nil => simp
  | cons p m ih =>
    by_cases hp : (p.1 == k) = true
    · have hp1 : p.1 = k := by simpa using hp
      have hnk : ((k, v).1 == k') = false := by simpa using h
      have hnk2 : (p.1 == k') = false := by
        rw [hp1]
        simpa using h
      rw [List.map_cons, if_pos hp, List.find?_cons_of_neg _ (by simp [hnk]),
        List.find?_cons_of_neg _ (by simp [hnk2])]
      exact ih
    · rw [List.map_cons, if_neg (by simpa using hp)]
      by_cases hq : (p.1 == k') = true
      · rw [List.find?_cons_of_pos _ (by simpa using hq),
          List.find?_cons_of_pos _ (by simpa using hq)]
      · rw [List.find?_cons_of_neg _ (by simpa using hq),
          List.find?_cons_of_neg _ (by simpa using hq)]
        exact ih

/-- Looking up an assoc list right after writing key `k`. -/
theorem pyDictGet_dictInsert_same (m : List (String × Nat)) (k : String) (v : Nat) :
    pyDictGet (dictInsert m k v) k = some v := by
  unfold dictInsert pyDictGet
  split
  · rename_i hany
    rw [find?_map_overwrite, if_pos hany]
    rfl
  · rename_i hany
    rw [List.find?_append]
    have h1 : List.find? (fun p => p.1 == k) m = none := by
      rw [List.find?_eq_none]
      intro p hp hpk
      exact hany (List.any_eq_true.mpr ⟨p, hp, hpk⟩)
    rw [h1]
    simp [List.find?]

/-- Looking up another key after writing key `k` is unchanged. -/
theorem pyDictGet_dictInsert_other (m : List (String × Nat)) (k k' : String) (v : Nat)
    (h : k ≠ k') : pyDictGet (dictInsert m k v) k' = pyDictGet m k' := by
  unfold dictInsert pyDictGet
  split
  · rw [find?_map_overwrite_other k k' v h]
  · rw [List.find?_append]
    cases hf : List.find? (fun p => p.1 == k') m with
    | none => simp [hf, List.find?, show (k == k') = false from by simpa using h]
    | some p => simp [hf]

/-- The last value bound to key `k` in a sequence of dict assignments. -/
def lastVal (ps : List (String × Nat)) (k : String) : Option Nat :=
  ((ps.filter (fun p => p.1 == k)).getLast?).map (fun p => p.2)

/-- Folding dict assignments: the lookup returns the LAST assignment to the
key, falling back to the initial dict. -/
theorem pyDictGet_foldl_insert (k : String) :
    ∀ (ps : List (String × Nat)) (m : List (String × Nat)),
    pyDictGet (ps.foldl (fun m p => dictInsert m p.1 p.2) m) k
      = match lastVal ps k with
        | some v => some v
        | none => pyDictGet m k := by
  intro ps
  induction ps with
  | nil => intro m; rfl
  | cons p ps ih =>
    intro m
    simp only [List.foldl_cons]
    rw [ih]
    by_cases hp : (p.1 == k) = true
    · have hp1 : p.1 = k := by simpa using hp
      cases hlast : lastVal ps k with
      | some v =>
        have hcons : lastVal (p :: ps) k = some v := by
          unfold lastVal at hlast ⊢
          rw [List.filter_cons_of_pos (by simpa using hp)]
          rcases hfil : List.filter (fun q => q.1 == k) ps with _ | ⟨q, qs⟩
          · rw [hfil] at hlast
            simp at hlast
          · rw [hfil] at hlast
            rw [hfil, List.getLast?_cons_cons]
            exact hlast
        simp [hcons]
      | none =>
        have hfil : List.filter (fun q => q.1 == k) ps = [] := by
          unfold lastVal at hlast
          rcases hfil : List.filter (fun q => q.1 == k) ps with _ | ⟨q, qs⟩
          · exact hfil
          · rw [hfil] at hlast
            cases hg : (q :: qs).getLast? with
            | none =>
              rw [List.getLast?_eq_none_iff] at hg
              cases hg
            | some xq =>
              rw [hg] at hlast
              simp at hlast
        have hcons : lastVal (p :: ps) k = some p.2 := by
          unfold lastVal
          rw [List.filter_cons_of_pos (by simpa using hp), hfil]
          rfl
        rw [hcons]
        rw [← hp1, pyDictGet_dictInsert_same]
    · have hcons : lastVal (p :: ps) k = lastVal ps k := by
        unfold lastVal
        rw [List.filter_cons_of_neg (by simpa using hp)]
      rw [hcons]
      cases hlast : lastVal ps k with
      | some v => simp [hlast]
      | none =>
        simp only [hlast]
        exact pyDictGet_dictInsert_other m p.1 k p.2 (by simpa using hp)

/-- C2 (amended): for every slide list, the title lookup built by
`generate_pptx` resolves a title to the position of the LAST slide bearing
it in the final ordered slide sequence (CPython dict-comprehension
semantics), not the first. -/
theorem C2_duplicate_titles_resolve_to_last (slides : List SlideData) (t : String) :
    pyDictGet (title_to_index slides) t = lastTitleIndex slides t := by
  unfold title_to_index lastTitleIndex
  rw [pyDictGet_foldl_insert]
  unfold lastVal
  rw [List.filter_map (fun p => (p.2.title, p.1 + 1)) slides.enum,
    List.getLast?_map]
  have hpred : ((fun p => p.1 == t) ∘ (fun (p : Nat × SlideData) => (p.2.title, p.1 + 1)))
      = fun (p : Nat × SlideData) => p.2.title == t := rfl
  rw [hpred]
  cases hO : (List.filter (fun (p : Nat × SlideData) => p.2.title == t) slides.enum).getLast? with
  | none => rfl
  | some q => rfl

/-- C3: the pipeline is deterministic — the archive entry list is a function
of the slide list, the captured timestamp and the (deterministic) compressor
alone: equal inputs give byte-identical part lists, and compressors that
agree pointwise give identical archives. The wall-clock values excluded by
the claim (`now_iso` and the zip-header timestamps) enter only through the
`now_iso` parameter; nothing else in the pipeline reads any ambient state. -/
theorem C3_pipeline_deterministic (compress : List Nat → List Nat)
    (now_iso : String) (slides1 slides2 : List SlideData) (h : slides1 = slides2) :
    generatePptxEntries (build_image_assets compress) now_iso slides1
      = generatePptxEntries (build_image_assets compress) now_iso slides2 ∧
    ∀ compress2 : List Nat → List Nat, (∀ xs, compress xs = compress2 xs) →
      generatePptxEntries (build_image_assets compress) now_iso slides1
        = generatePptxEntries (build_image_assets compress2) now_iso slides1 := by
  constructor
  · rw [h]
  · intro compress2 hc
    have : compress = compress2 := funext hc
    rw [this]

/-- Witness for C3 at a concrete empty run. -/
theorem C3_pipeline_deterministic_witness :
    generatePptxEntries (build_image_assets (fun _ => [])) "2026-01-01T00:00:00Z" []
      = generatePptxEntries (build_image_assets (fun _ => [])) "2026-01-01T00:00:00Z" [] :=
  (C3_pipeline_deterministic (fun _ => []) "2026-01-01T00:00:00Z" [] [] rfl).1

/-! ## Claim C1: misaligned index-card relationship ids -/

/-- The failing input for C1: slides titled `"A"`, `"B"` and an index slide
whose entries target `"C"` (unresolvable) and then `"B"` (resolvable). -/
def c1EntryC : IndexEntry := IndexEntry.mk "Go C" "sub" "C"

def c1EntryB : IndexEntry := IndexEntry.mk "Go B" "sub" "B"

def c1Slides : List SlideData :=
  [SlideData.mk "A" [] none none none none none none none,
   SlideData.mk "B" [] none none none none none none none,
   SlideData.mk "Index" [] none none none none none none (some [c1EntryC, c1EntryB])]

/-- C1 (bug demonstration at the failing input): the index slide emits
exactly one navigation relationship (`rId2`, correctly pointing at slide 2 =
`"B"`), but the positional pairing of relationship ids with entries hands
that id to the FIRST card — the unresolvable `"Go C"` entry — and skips the
resolvable `"Go B"` card instead. The claim (card of the unresolvable entry
absent, resolvable entries linked to their own targets) is what the spec
states and what the code\'s own skip test
(`if not rid: continue`) intends; the positional pairing is the slip. -/
theorem C1_misaligned_card_rids :
    computeLinkTargets (title_to_index c1Slides) (c1Slides.getD 2 (SlideData.mk "" [] none none none none none none none)) = [2] ∧
    (slide_rels_xml none [2]).2 = ["rId2"] ∧
    (slideRelationships none [2]).1
      = [slideLayoutRelationship, slideNavRelationship "rId2" 2] ∧
    indexCardsFold [c1EntryC, c1EntryB] ["rId2", ""] 5
      = ([index_card_shape_xml 5 457200 2042160 5486400 1190000 "Go C" "sub" "rId2"], 6) ∧
    slideShapes (SlideData.mk "Index" [] none none none none none none
        (some [c1EntryC, c1EntryB])) 3 3 (some ["rId2"])
      = Except.ok
        [shape_xml 2 "Top Accent" 0 0 SLIDE_WIDTH 137160
           [paragraph_xml "" "Aptos" 1000 "000000" false false false none 112000 0 120]
           (some "2563EB") none 12700 "" none,
         shape_xml 3 "Title" 457200 190500 11277600 685800
           [paragraph_xml "Index" "Aptos Display" 3400 "0F172A" true false false none 102000 0 180]
           none none 12700 "" none,
         shape_xml 4 "Body" 457200 914400 11277600 1066800 []
           (some "FFFFFF") (some "DBE6FB") 19050 "" none,
         index_card_shape_xml 5 457200 2042160 5486400 1190000 "Go C" "sub" "rId2",
         shape_xml 6 "Slide Number" 9906000 6464300 1437800 304800
           [paragraph_xml "3/3" "Aptos" 1150 "64748B" false false false (some "r") 100000 0 0]
           none none 12700 "" none] := by
  refine ⟨by decide, rfl, rfl, rfl, rfl⟩

/-! ## Claim C10 support -/

/-- `dict.get` succeeds exactly on present keys. -/
theorem pyDictGet_isSome {α : Type} (m : List (String × α)) (k : String) :
    (pyDictGet m k).isSome = m.any (fun p => p.1 == k) := by
  induction m with
  | nil => rfl
  | cons p m ih =>
    unfold pyDictGet
    by_cases hp : (p.1 == k) = true
    · rw [List.find?_cons_of_pos _ (by simpa using hp)]
      simp [hp]
    · rw [List.find?_cons_of_neg _ (by simpa using hp)]
      simp only [List.any_cons, (by simpa using hp : (p.1 == k) = false), Bool.false_or]
      exact ih

/-- Insertion keeps exactly the old members plus the new one. -/
theorem mem_insertSortedStr (x a : String) :
    ∀ l : List String, x ∈ insertSortedStr a l ↔ x = a ∨ x ∈ l := by
  intro l
  induction l with
  | nil => simp [insertSortedStr]
  | cons y ys ih =>
    unfold insertSortedStr
    split
    · simp
    · simp only [List.mem_cons, ih]
      tauto

/-- `sorted` keeps exactly the members. -/
theorem mem_pySortedStr (x : String) :
    ∀ l : List String, x ∈ pySortedStr l ↔ x ∈ l := by
  intro l
  induction l with
  | nil => simp [pySortedStr]
  | cons y ys ih =>
    unfold pySortedStr at ih ⊢
    simp only [List.foldr_cons, mem_insertSortedStr, List.mem_cons, ih]

/-- A name produced by `image_names` is never the empty string. -/
theorem imageNames_value_ne_empty (ks : List String) (k nm : String)
    (h : pyDictGet (imageNames ks) k = some nm) : nm ≠ "" := by
  unfold pyDictGet at h
  rw [Option.map_eq_some'] at h
  obtain ⟨p, hfind, hv⟩ := h
  have hmem := List.mem_of_find?_eq_some hfind
  unfold imageNames at hmem
  rw [List.mem_map] at hmem
  obtain ⟨q, -, hq⟩ := hmem
  subst hq
  intro hempty
  have hcomb : (toString "image" ++ toString (q.1 + 1) ++ toString ".png") = "" :=
    hv.trans hempty
  have hlen := congrArg String.length hcomb
  rw [String.length_append, String.length_append] at hlen
  have h5 : (toString "image").length = 5 := rfl
  have h4 : (toString ".png").length = 4 := rfl
  have h0 : ("" : String).length = 0 := rfl
  rw [h5, h4, h0] at hlen
  omega

/-- Key-presence is invariant under the name-assigning map. -/
theorem any_key_map (k : String) (f : Nat × String → String) :
    ∀ l : List (Nat × String),
    (l.map (fun p => (p.2, f p))).any (fun p => p.1 == k) = l.any (fun p => p.2 == k) := by
  intro l
  induction l with
  | nil => rfl
  | cons q l ih =>
    simp only [List.map_cons, List.any_cons, ih]

/-- Key-presence is invariant under enumeration. -/
theorem any_key_enumFrom (k : String) :
    ∀ (l : List String) (n : Nat),
    (l.enumFrom n).any (fun p => p.2 == k) = l.any (fun x => x == k) := by
  intro l
  induction l with
  | nil => intro n; rfl
  | cons x l ih =>
    intro n
    simp only [List.enumFrom, List.any_cons, ih]

/-- `image_names` holds exactly the asset keys. -/
theorem imageNames_isSome (ks : List String) (k : String) :
    (pyDictGet (imageNames ks) k).isSome = true ↔ k ∈ ks := by
  rw [pyDictGet_isSome]
  unfold imageNames
  rw [any_key_map k (fun p =>
    let n := p.1 + 1
    s!"image{n}.png")]
  rw [show (pySortedStr ks).enum = (pySortedStr ks).enumFrom 0 from rfl,
    any_key_enumFrom]
  rw [List.any_eq_true]
  constructor
  · rintro ⟨x, hx, hxk⟩
    have : x = k := by simpa using hxk
    rw [← this]
    exact (mem_pySortedStr x ks).mp hx
  · intro hk
    exact ⟨k, (mem_pySortedStr k ks).mpr hk, by simp⟩

/-- C10: an image-only slide (image key present; no code, table or index
entries) always emits the picture shape bound to the fixed embed id `rId2`
(shape id 5, right after accent/title/body); its relationship part carries
the matching `rId2` image relationship to the named media part exactly when
the image key is one of the built image assets; with an unknown key the
picture still references `rId2` while the relationship part holds only the
reserved layout relationship — no image relationship is written. Index
slides are disjoint from this layout, so the slide contributes no navigation
targets (`computeLinkTargets` is empty), matching the `generate_pptx`
wiring. -/
theorem C10_image_only_rId2 (compress : List Nat → List Nat) (slide : SlideData)
    (k : String) (si sc : Nat) (rids : Option (List String))
    (t2i : List (String × Nat))
    (hkey : slide.image_key = some k) (hcode : slide.code = none)
    (htab : slide.table = none) (hidx : pyTruthyList slide.index_entries = false) :
    (∃ shapes, slideShapes slide si sc rids = Except.ok shapes ∧
      picture_xml 5 "Illustration" 7797800 1300000 3850000 2980000 "rId2" ∈ shapes) ∧
    computeLinkTargets t2i slide = [] ∧
    ((pyDictGet (imageNames ((build_image_assets compress).map (fun p => p.1))) k).isSome
      ↔ k ∈ (build_image_assets compress).map (fun p => p.1)) ∧
    (∀ nm, pyDictGet (imageNames ((build_image_assets compress).map (fun p => p.1))) k
        = some nm →
      (slideRelationships (some nm) []).1
        = [slideLayoutRelationship, imageRelationship nm]) ∧
    (slideRelationships none []).1 = [slideLayoutRelationship] := by
  refine ⟨?_, ?_, ?_, ?_, rfl⟩
  · obtain ⟨ti, bu, ct, co, fo, ik, ca, ta, ie⟩ := slide
    simp only at hkey hcode htab hidx
    subst hkey
    subst hcode
    subst htab
    by_cases hcap : pyTruthyOpt ca = true <;> by_cases hfoot : pyTruthyOpt fo = true <;>
      (unfold slideShapes
       simp only [Option.isSome_some, Option.isNone_none, Option.isSome_none, hidx, hcap, hfoot,
         Bool.not_false, Bool.and_self, Bool.true_and, Bool.and_true, if_true, if_false,
         Bool.false_eq_true, ite_true, ite_false]
       exact ⟨_, rfl, by simp⟩)
  · unfold computeLinkTargets
    cases hie : slide.index_entries with
    | none => rfl
    | some entries =>
      rw [hie] at hidx
      unfold pyTruthyList at hidx
      have : entries = [] := by simpa using hidx
      rw [this]
      rfl
  · exact imageNames_isSome ..
  · intro nm hnm
    have hne := imageNames_value_ne_empty _ _ _ hnm
    unfold slideRelationships
    have ht : pyTruthyOpt (some nm) = true := by
      unfold pyTruthyOpt
      simpa using hne
    rw [ht]
    rfl

/-- Witness for `C10_image_only_rId2`: a concrete image-only slide bearing
the `cover_overview` image key, with identity compression, slide index 1 in
a deck of 10 and no navigation rids. -/
theorem C10_image_only_rId2_witness :
    (∃ shapes, slideShapes
        ⟨"Cover", [], none, none, none, some "cover_overview", none, none, none⟩
        1 10 none = Except.ok shapes ∧
      picture_xml 5 "Illustration" 7797800 1300000 3850000 2980000 "rId2" ∈ shapes) ∧
    computeLinkTargets []
        ⟨"Cover", [], none, none, none, some "cover_overview", none, none, none⟩ = [] ∧
    ((pyDictGet (imageNames ((build_image_assets (fun x => x)).map (fun p => p.1)))
          "cover_overview").isSome
      ↔ "cover_overview" ∈ (build_image_assets (fun x => x)).map (fun p => p.1)) ∧
    (∀ nm, pyDictGet (imageNames ((build_image_assets (fun x => x)).map (fun p => p.1)))
          "cover_overview" = some nm →
      (slideRelationships (some nm) []).1
        = [slideLayoutRelationship, imageRelationship nm]) ∧
    (slideRelationships none []).1 = [slideLayoutRelationship] :=
  C10_image_only_rId2 (fun x => x)
    ⟨"Cover", [], none, none, none, some "cover_overview", none, none, none⟩
    "cover_overview" 1 10 none [] rfl rfl rfl rfl
